import Mathlib

/-!
Verification of the ASCII-ASTRIT per-frame render pipeline (`AsciiEngine` in
the engine module).  The engine is shallowly embedded: JavaScript numbers are
modelled as rationals (`ℚ`) wherever the computation is ring/field arithmetic
with comparisons, and as reals (`ℝ`) where transcendental functions
(`Math.cos`, `Math.pow`, `Math.sqrt`) appear.  `Math.floor` is `Int.floor`,
`Math.round` is Mathlib's `round` (both round half toward +∞ on the inputs in
scope), `Math.abs` is `|·|`.  Mutable `Float32Array` buffers become `List ℚ`
passed and returned explicitly; the engine instance's temporal fields become
the `TemporalState` structure.

The stages the claims are about (temporal reset / persistence, dithering,
grading, edge classification, palette quantization, metrics) are embedded
from the source.  Stages that are upstream of those claims and numerically
transcendental (canvas sampling, the Sobel convolution itself, the distortion
coordinate remapping, the glyph-mode dispatch) enter the temporal-frame model
as explicit inputs, documented at each binder; every theorem quantifies over
those inputs, so nothing proved depends on a particular choice for them.
-/

namespace AsciiAstrit

/-- `clamp01` from the engine: `Math.max(0, Math.min(1, v))`. -/
def clamp01 (v : ℚ) : ℚ := max 0 (min 1 v)

theorem clamp01_nonneg (v : ℚ) : 0 ≤ clamp01 v := le_max_left 0 _

theorem clamp01_le_one (v : ℚ) : clamp01 v ≤ 1 := by
  unfold clamp01
  rcases le_total (min 1 v) 0 with h | h
  · simp [max_eq_left h]
  · simp [max_eq_right h, min_le_left]

theorem clamp01_of_mem (v : ℚ) (h0 : 0 ≤ v) (h1 : v ≤ 1) : clamp01 v = v := by
  unfold clamp01
  rw [min_eq_right h1, max_eq_right h0]

/-- Monotonicity of the engine's clamp. -/
theorem clamp01_mono {a b : ℚ} (h : a ≤ b) : clamp01 a ≤ clamp01 b := by
  unfold clamp01
  exact max_le_max le_rfl (min_le_min le_rfl h)

/-- RGB triple as produced by `hexToRgb` (integer 0–255 channels, as `ℚ`
for the distance arithmetic of `findNearestColor`). -/
structure RGBq where
  r : ℚ
  g : ℚ
  b : ℚ
deriving DecidableEq, Repr

/-- Value of one lowercase hexadecimal digit, `none` when the character is
not a hex digit (the engine's regex `[a-f\d]` on the lowercased string). -/
def hexDigitVal (c : Char) : Option ℕ :=
  if '0' ≤ c ∧ c ≤ '9' then some (c.toNat - '0'.toNat)
  else if 'a' ≤ c ∧ c ≤ 'f' then some (c.toNat - 'a'.toNat + 10)
  else none

/-- Parse a run of hex digits most-significant first. -/
def hexDigitsVal : List Char → Option ℕ
  | [] => some 0
  | c :: rest => do
    let d ← hexDigitVal c
    let r ← hexDigitsVal rest
    pure (d * 16 ^ rest.length + r)

/-- `hexToRgb` from the engine: lowercase the key, accept an optional
leading `#` followed by exactly six hex digits, else fall back to black. -/
def hexToRgb (hex : String) : RGBq :=
  let key := (hex.toList.map Char.toLower)
  let body := match key with
    | '#' :: rest => rest
    | rest => rest
  match body with
  | [a, b, c, d, e, f] =>
    match hexDigitsVal [a, b], hexDigitsVal [c, d], hexDigitsVal [e, f] with
    | some r, some g, some bl => ⟨(r : ℚ), (g : ℚ), (bl : ℚ)⟩
    | _, _, _ => ⟨0, 0, 0⟩
  | _ => ⟨0, 0, 0⟩

/-- Squared Euclidean RGB distance used by `findNearestColor`. -/
def rgbDistSq (r g b : ℚ) (c : RGBq) : ℚ :=
  (r - c.r) * (r - c.r) + (g - c.g) * (g - c.g) + (b - c.b) * (b - c.b)

/-- One step of `findNearestColor`'s scan: `minDist` starts at `Infinity`
(modelled as `none`), and the update fires only on a strict decrease
(`dist < minDist`), so the earliest palette index wins ties. -/
def findNearestStep (r g b : ℚ) (palette : List String)
    (acc : Option ℚ × String) (i : ℕ) : Option ℚ × String :=
  let c := (palette.map hexToRgb).getD i ⟨0, 0, 0⟩
  let dist := rgbDistSq r g b c
  match acc.1 with
  | none => (some dist, palette.getD i acc.2)
  | some m => if dist < m then (some dist, palette.getD i acc.2) else acc

/-- `findNearestColor` from the engine (the `paletteRgb` argument of the
source is always `palette.map(hexToRgb)`, inlined here). -/
def findNearestColor (r g b : ℚ) (palette : List String) : String :=
  ((List.range (palette.map hexToRgb).length).foldl
    (findNearestStep r g b palette) (none, palette.headD "#000000")).2

/-! ## Dither engine -/

/-- The fixed 4×4 Bayer threshold matrix (`BAYER_MATRIX_4x4` in the
constants module). -/
def BAYER_MATRIX_4x4 : List (List ℚ) :=
  [[0, 8, 2, 10], [12, 4, 14, 6], [3, 11, 1, 9], [15, 7, 13, 5]]

/-- The ordered-dither perturbation added to a luminance or channel value at
cell `(x, y)`: `(BAYER_MATRIX_4x4[y % 4][x % 4] / 16.0 - 0.5) * amount`. -/
def bayerOffset (x y : ℕ) (amount : ℚ) : ℚ :=
  (((BAYER_MATRIX_4x4.getD (y % 4) []).getD (x % 4) 0) / 16 - 1/2) * amount

/-- In-place `buffer[i] = v` on the list model (no-op out of range, as a
typed-array write past the end would be). -/
def listSet (l : List ℚ) (i : ℕ) (v : ℚ) : List ℚ :=
  l.set i v

/-- In-place `buffer[i] += v` on the list model. -/
def listAdd (l : List ℚ) (i : ℕ) (v : ℚ) : List ℚ :=
  l.set i (l.getD i 0 + v)

/-- Loop body of `applyFloydSteinbergLuma` for linear cell index `i`
(`idx = y*cols + x` visits cells in exactly this order): quantize to the
8-step ladder, keep the quantized value, and diffuse the strength-scaled
residual with the 7/16, 3/16, 5/16, 1/16 weights. -/
def fsLumaCell (cols rows : ℕ) (strength : ℚ) (buffer : List ℚ) (i : ℕ) : List ℚ :=
  let x := i % cols
  let y := i / cols
  let oldVal := buffer.getD i 0
  let newVal := (round (oldVal * 8) : ℤ) / (8 : ℚ)
  let err := (oldVal - newVal) * strength
  let b1 := listSet buffer i newVal
  let b2 := if x + 1 < cols then listAdd b1 (i + 1) (err * (7/16)) else b1
  if y + 1 < rows then
    let b3 := if 0 < x then listAdd b2 (i + cols - 1) (err * (3/16)) else b2
    let b4 := listAdd b3 (i + cols) (err * (5/16))
    if x + 1 < cols then listAdd b4 (i + cols + 1) (err * (1/16)) else b4
  else b2

/-- `applyFloydSteinbergLuma` from the engine: raster-order error diffusion
over the luma buffer with an 8-step quantization ladder. -/
def applyFloydSteinbergLuma (buffer : List ℚ) (cols rows : ℕ) (strength : ℚ) : List ℚ :=
  (List.range (rows * cols)).foldl (fsLumaCell cols rows strength) buffer

/-- Loop body of `applyFloydSteinbergRGB` for linear cell index `i` over the
stride-4 RGBA buffer: snap the cell to the nearest palette color, diffuse the
strength-scaled residual per channel, and overwrite the base buffer with the
quantized value only when `quantizeBaseBuffer` is set. -/
def fsRGBCell (cols rows : ℕ) (strength : ℚ) (quantizeBaseBuffer : Bool)
    (palette : List String) (buffer : List ℚ) (i : ℕ) : List ℚ :=
  let x := i % cols
  let y := i / cols
  let idx := i * 4
  let r := buffer.getD idx 0
  let g := buffer.getD (idx + 1) 0
  let b := buffer.getD (idx + 2) 0
  let hex := findNearestColor (r * 255) (g * 255) (b * 255) palette
  let rgb := hexToRgb hex
  let nr := rgb.r / 255
  let ng := rgb.g / 255
  let nb := rgb.b / 255
  let er := (r - nr) * strength
  let eg := (g - ng) * strength
  let eb := (b - nb) * strength
  let b0 :=
    if quantizeBaseBuffer then
      listSet (listSet (listSet buffer idx nr) (idx + 1) ng) (idx + 2) nb
    else buffer
  let diffuse := fun (buf : List ℚ) (n : ℕ) (w : ℚ) =>
    listAdd (listAdd (listAdd buf n (er * w)) (n + 1) (eg * w)) (n + 2) (eb * w)
  let b1 := if x + 1 < cols then diffuse b0 (idx + 4) (7/16) else b0
  if y + 1 < rows then
    let rowOffset := cols * 4
    let b2 := if 0 < x then diffuse b1 (idx + rowOffset - 4) (3/16) else b1
    let b3 := diffuse b2 (idx + rowOffset) (5/16)
    if x + 1 < cols then diffuse b3 (idx + rowOffset + 4) (1/16) else b3
  else b1

/-- `applyFloydSteinbergRGB` from the engine: raster-order error diffusion
over the graded RGBA buffer, quantizing to the nearest palette color. -/
def applyFloydSteinbergRGB (buffer : List ℚ) (cols rows : ℕ) (strength : ℚ)
    (quantizeBaseBuffer : Bool) (palette : List String) : List ℚ :=
  (List.range (rows * cols)).foldl (fsRGBCell cols rows strength quantizeBaseBuffer palette) buffer

/-- Dithering mode enum (`DitheringMode` in the types module). -/
inductive DitheringMode where
  | NONE | BAYER | FLOYD
deriving DecidableEq, Repr

/-- Color mode enum (`ColorMode` in the types module). -/
inductive ColorMode where
  | MONO | GRADIENT | FULL | QUANTIZED
deriving DecidableEq, Repr

/-! ## Temporal stabilizer -/

/-- The engine instance's temporal fields (`prevLumaBuffer`,
`prevEdgeMagnitude`, `prevCharGrid`, `temporalHistoryValid`,
`lastTemporalFrameIndex`, `lastTemporalSampleLen`,
`appliedTemporalSignature`). -/
structure TemporalState where
  prevLuma : List ℚ
  prevEdgeMag : List ℚ
  prevCharGrid : List Char
  historyValid : Bool
  lastFrameIndex : ℤ
  lastSampleLen : ℕ
  appliedSignature : String
deriving DecidableEq, Repr

/-- A freshly constructed engine's temporal fields. -/
def initialTemporalState : TemporalState :=
  ⟨[], [], [], false, -1, 0, ""⟩

/-- `applyTemporalBlend`: with `amount = clamp01(blend)`, blend pointwise
when `amount > 0` and the lengths match, else leave `current` unchanged. -/
def applyTemporalBlend (current previous : List ℚ) (blend : ℚ) : List ℚ :=
  let amount := clamp01 blend
  if amount ≤ 0 ∨ current.length ≠ previous.length then current
  else (current.zip previous).map (fun p => p.1 * (1 - amount) + p.2 * amount)

/-- `computeTemporalMotionScore`: normalized luma delta (scale 0.35) at
weight 0.65, blended with the normalized edge-magnitude delta at weight
0.35, clamped. -/
def computeTemporalMotionScore (lumaDelta edgeDeltaNorm : ℚ) : ℚ :=
  let lumaNorm := clamp01 (lumaDelta / (7/20))
  clamp01 (lumaNorm * (13/20) + clamp01 edgeDeltaNorm * (7/20))

/-- `resetTemporalState`: zero the three history buffers at the current cell
count, invalidate the history, and forget the last frame index. -/
def resetTemporalState (st : TemporalState) (sampleLen : ℕ) : TemporalState :=
  { st with
    prevLuma := List.replicate sampleLen 0
    prevEdgeMag := List.replicate sampleLen 0
    prevCharGrid := List.replicate sampleLen ' '
    historyValid := false
    lastFrameIndex := -1
    lastSampleLen := sampleLen }

/-- A JavaScript number supplied as the frame index: `none` models a
non-finite value (`NaN` or `±Infinity`), `some q` a finite one. -/
abbrev JsNumber := Option ℚ

/-- `disciplinedFrameIndex = Number.isFinite(frameIndex)
? Math.max(0, Math.floor(frameIndex)) : 0`. -/
def disciplineFrameIndex (frameIndex : JsNumber) : ℕ :=
  match frameIndex with
  | none => 0
  | some q => (max 0 ⌊q⌋).toNat

/-- `shockDecay`/`shockIntensity` from the head of `render`: a supplied
non-negative progress decays as `max(0, 1 - progress)` and is squared. -/
def shockIntensityOf (shockProgress : Option ℚ) : ℚ :=
  let d := match shockProgress with
    | some p => if 0 ≤ p then max 0 (1 - p) else 0
    | none => 0
  d * d

/-- The configuration fields `render` reads for the temporal slice.  The
`signature` field stands for the value of `getTemporalSignature(config)`,
which is a pure function of the glyph/luma-affecting configuration fields;
the claims about it quantify over the signature string directly. -/
structure TemporalConfig where
  temporalEnabled : Bool
  temporalBlend : ℚ
  characterInertia : ℚ
  edgeTemporalStability : ℚ
  adaptiveInertiaEnabled : Bool
  adaptiveInertiaStrength : ℚ
  temporalGhostClamp : ℚ
  ditheringMode : DitheringMode
  dithering : ℚ
  colorizeDither : Bool
  outlineEnabled : Bool
  signature : String
deriving DecidableEq, Repr

/-- Per-frame context for the per-cell loop of `render`.  `lookupIdx` is the
distortion/shock-resolved, clamped sample index `lIdx` of lines 909–942 (a
pure function of the disciplined frame index and the grid index);
`naiveCharF` is the naive glyph decision of lines 973–984 (edge-directional
glyph or `getChar`) as a function of the disciplined frame index, the grid
index and the loop's luminance; `sobelMax` stands for the irrational
constant `SOBEL_MAX_MAGNITUDE = 4√2`.  Every theorem below quantifies over
these, so nothing depends on a particular instantiation. -/
structure CellCtx where
  cols : ℕ
  sampleLen : ℕ
  inertia : ℚ
  adaptiveEnabled : Bool
  adaptiveStrength : ℚ
  ghostClamp : ℚ
  bayerActive : Bool
  dithering : ℚ
  hasHistory : Bool
  shockIntensity : ℚ
  sobelMax : ℚ
  luma : List ℚ
  edgeData : Option (List ℚ)
  prevLuma : List ℚ
  prevEdgeMag : List ℚ
  prevCharGrid : List Char
  frame : ℕ
  lookupIdx : ℕ → ℕ → ℕ
  naiveCharF : ℕ → ℕ → ℚ → Char

/-- What the loop body computes for one cell. -/
structure CellOut where
  luminance : ℚ
  lumaDelta : ℚ
  edgeDeltaNorm : ℚ
  motionScore : ℚ
  naiveChar : Char
  finalChar : Char
  decided : Bool
  locked : Bool
deriving DecidableEq, Repr

/-- `lIdx`: the distortion-resolved sample index of the cell. -/
def cellLIdx (P : CellCtx) (i : ℕ) : ℕ := P.lookupIdx P.frame i

/-- The loop's `luminance` local: the (blended, error-diffused) luma at the
sample index, plus the ordered-dither offset when Bayer dithering is
active. -/
def cellLuminance (P : CellCtx) (i : ℕ) : ℚ :=
  let lum0 := P.luma.getD (cellLIdx P i) 0
  if P.bayerActive then clamp01 (lum0 + bayerOffset (i % P.cols) (i / P.cols) P.dithering)
  else lum0

/-- The loop's `prevLum` local (`?? luminance` covers a missing entry). -/
def cellPrevLum (P : CellCtx) (i : ℕ) : ℚ :=
  if P.hasHistory then P.prevLuma.getD i (cellLuminance P i) else cellLuminance P i

/-- The loop's `lumaDelta` local. -/
def cellLumaDelta (P : CellCtx) (i : ℕ) : ℚ :=
  if P.hasHistory then |cellLuminance P i - cellPrevLum P i| else 0

/-- The loop's `edgeDeltaNorm` local. -/
def cellEdgeDeltaNorm (P : CellCtx) (i : ℕ) : ℚ :=
  if P.hasHistory ∧ P.edgeData.isSome ∧ P.prevEdgeMag.length = P.sampleLen then
    clamp01 (|(P.edgeData.getD []).getD (cellLIdx P i) 0 - P.prevEdgeMag.getD i 0| / P.sobelMax)
  else 0

/-- The loop's `motionScore` local. -/
def cellMotionScore (P : CellCtx) (i : ℕ) : ℚ :=
  if P.hasHistory then computeTemporalMotionScore (cellLumaDelta P i) (cellEdgeDeltaNorm P i)
  else 0

/-- The naive glyph of the cell (lines 973–984, before persistence). -/
def cellNaiveChar (P : CellCtx) (i : ℕ) : Char :=
  P.naiveCharF P.frame i (cellLuminance P i)

/-- The loop's `previousChar` local (`|| ' '` covers a missing entry). -/
def cellPrevChar (P : CellCtx) (i : ℕ) : Char :=
  P.prevCharGrid.getD i ' '

/-- The loop's `currentEdgeNorm` local of the adaptive-inertia branch. -/
def cellCurrentEdgeNorm (P : CellCtx) (i : ℕ) : ℚ :=
  match P.edgeData with
  | some m => clamp01 (m.getD (cellLIdx P i) 0 / P.sobelMax)
  | none => 0

/-- The loop's `inertiaThreshold` local: `0.02 + inertia*0.25`, shrunk (with
a 0.1 floor) by the adaptive motion/contrast scales when adaptive inertia is
enabled. -/
def cellInertiaThreshold (P : CellCtx) (i : ℕ) : ℚ :=
  let baseInertiaThreshold := 1/50 + P.inertia * (1/4)
  if P.adaptiveEnabled then
    baseInertiaThreshold *
      max (1/10)
        ((1 - P.adaptiveStrength * cellMotionScore P i) *
          (1 - P.adaptiveStrength * (1/2) * cellCurrentEdgeNorm P i))
  else baseInertiaThreshold

/-- The loop's `allowPersistence` local: the ghost clamp fires (only under
adaptive inertia) once the motion score exceeds `0.2 + ghostClamp*0.55`. -/
def cellAllowPersistence (P : CellCtx) (i : ℕ) : Bool :=
  if P.adaptiveEnabled then decide ¬(1/5 + P.ghostClamp * (11/20) < cellMotionScore P i)
  else true

/-- Guard of the persistence block (line 986 with the line-988 inequality):
history valid, inertia positive, no shock, naive glyph differing from the
previous frame's glyph. -/
def cellDecisionGate (P : CellCtx) (i : ℕ) : Bool :=
  P.hasHistory && decide (0 < P.inertia) && decide (P.shockIntensity = 0) &&
    decide (cellPrevChar P i ≠ cellNaiveChar P i)

/-- The cell keeps its previous glyph: persistence decision taken, allowed,
and luma delta strictly below the inertia threshold (line 1006). -/
def cellPersists (P : CellCtx) (i : ℕ) : Bool :=
  cellDecisionGate P i && cellAllowPersistence P i &&
    decide (cellLumaDelta P i < cellInertiaThreshold P i)

/-- The body of `render`'s per-cell loop restricted to the temporal
signals and the character-persistence decision (lines 940–1017 of the
engine, with the drawing calls dropped). -/
def processCell (P : CellCtx) (i : ℕ) : CellOut :=
  ⟨cellLuminance P i, cellLumaDelta P i, cellEdgeDeltaNorm P i, cellMotionScore P i,
    cellNaiveChar P i,
    if cellPersists P i then cellPrevChar P i else cellNaiveChar P i,
    cellDecisionGate P i, cellPersists P i⟩

/-- Loop accumulator: the frame's character grid and the temporal
counters/sums of lines 891–897. -/
structure LoopAcc where
  charGrid : List Char
  locks : ℕ
  decisions : ℕ
  samples : ℕ
  lumaDeltaSum : ℚ
  edgeDeltaSum : ℚ
  motionSum : ℚ
deriving DecidableEq, Repr

/-- One iteration of the per-cell loop. -/
def loopStep (P : CellCtx) (acc : LoopAcc) (i : ℕ) : LoopAcc :=
  let c := processCell P i
  { charGrid := acc.charGrid ++ [c.finalChar]
    locks := acc.locks + (if c.locked then 1 else 0)
    decisions := acc.decisions + (if c.decided then 1 else 0)
    samples := acc.samples + (if P.hasHistory then 1 else 0)
    lumaDeltaSum := acc.lumaDeltaSum + (if P.hasHistory then c.lumaDelta else 0)
    edgeDeltaSum := acc.edgeDeltaSum + (if P.hasHistory then c.edgeDeltaNorm else 0)
    motionSum := acc.motionSum + (if P.hasHistory then c.motionScore else 0) }

/-- The whole per-cell loop in grid order (`y` outer, `x` inner is linear
index order). -/
def runCells (P : CellCtx) (sampleLen : ℕ) : LoopAcc :=
  (List.range sampleLen).foldl (loopStep P) ⟨[], 0, 0, 0, 0, 0, 0⟩

/-- `TemporalMetrics` of the render result. -/
structure TemporalMetrics where
  lockRatio : ℚ
  meanLumaDelta : ℚ
  meanEdgeDelta : ℚ
  meanMotion : ℚ
deriving DecidableEq, Repr

/-- The temporal-relevant outputs of one `render` call.  `lumaOut` is the
final content of `this.lumaBuffer` (post blend and Floyd–Steinberg), which
the metrics aggregation reads. -/
structure FrameOut where
  charGrid : List Char
  lumaOut : List ℚ
  lockCount : ℕ
  decisionCount : ℕ
  temporal : Option TemporalMetrics
deriving DecidableEq, Repr

/-- The temporal slice of `render` after the reset decision (luma and edge
blending, the Floyd–Steinberg luma pass, the per-cell loop with the
persistence decisions, the history writeback, and the temporal summary of
lines 866–877, 899–1017 and 1065–1098).  `st1` is the engine's temporal
state after the possible reset, `lumaIn` the luma buffer as filled from the
graded buffer at line 863, `sobelMag` the Sobel magnitude buffer
`computeEdgeData` fills at line 874 (consulted only when `outlineEnabled`);
see `CellCtx` for `lookupIdx`, `naiveCharF` and `sobelMax`. -/
def renderTemporalCore (cfg : TemporalConfig) (st1 : TemporalState)
    (cols rows : ℕ) (lumaIn : List ℚ) (sobelMag : List ℚ) (sobelMax : ℚ)
    (lookupIdx : ℕ → ℕ → ℕ) (naiveCharF : ℕ → ℕ → ℚ → Char)
    (disciplined : ℕ) (shockIntensity : ℚ) :
    TemporalState × FrameOut :=
  let sampleLen := cols * rows
  let temporalBlend := clamp01 cfg.temporalBlend
  let characterInertia := clamp01 cfg.characterInertia
  let edgeTemporalBlend := clamp01 cfg.edgeTemporalStability
  let adaptiveEnabled := cfg.temporalEnabled && cfg.adaptiveInertiaEnabled
  let adaptiveStrength := clamp01 cfg.adaptiveInertiaStrength
  let ghostClamp := clamp01 cfg.temporalGhostClamp
  let hasHistory :=
    cfg.temporalEnabled ∧ st1.historyValid = true ∧
      st1.prevLuma.length = sampleLen ∧ st1.prevCharGrid.length = sampleLen
  let luma1 :=
    if hasHistory ∧ 0 < temporalBlend then applyTemporalBlend lumaIn st1.prevLuma temporalBlend
    else lumaIn
  let luma2 :=
    if 0 < cfg.dithering ∧ cfg.ditheringMode = DitheringMode.FLOYD ∧ cfg.colorizeDither = false
    then applyFloydSteinbergLuma luma1 cols rows cfg.dithering
    else luma1
  let edgeData : Option (List ℚ) :=
    if cfg.outlineEnabled then
      some
        (if hasHistory ∧ 0 < edgeTemporalBlend ∧ st1.prevEdgeMag.length = sampleLen then
          applyTemporalBlend sobelMag st1.prevEdgeMag edgeTemporalBlend
        else sobelMag)
    else none
  let P : CellCtx :=
    { cols := cols, sampleLen := sampleLen, inertia := characterInertia
      adaptiveEnabled := adaptiveEnabled, adaptiveStrength := adaptiveStrength
      ghostClamp := ghostClamp
      bayerActive := decide (cfg.ditheringMode = DitheringMode.BAYER ∧ 0 < cfg.dithering)
      dithering := cfg.dithering, hasHistory := decide hasHistory
      shockIntensity := shockIntensity, sobelMax := sobelMax, luma := luma2
      edgeData := edgeData, prevLuma := st1.prevLuma, prevEdgeMag := st1.prevEdgeMag
      prevCharGrid := st1.prevCharGrid, frame := disciplined
      lookupIdx := lookupIdx, naiveCharF := naiveCharF }
  let acc := runCells P sampleLen
  let newState :=
    if cfg.temporalEnabled then
      { prevLuma := luma2
        prevEdgeMag := match edgeData with
          | some m => m
          | none => List.replicate sampleLen 0
        prevCharGrid := acc.charGrid
        historyValid := true
        lastFrameIndex := (disciplined : ℤ)
        lastSampleLen := sampleLen
        appliedSignature := cfg.signature : TemporalState }
    else initialTemporalState
  let temporal :=
    if cfg.temporalEnabled then
      some
        { lockRatio := if 0 < acc.decisions then (acc.locks : ℚ) / acc.decisions else 0
          meanLumaDelta := if 0 < acc.samples then acc.lumaDeltaSum / acc.samples else 0
          meanEdgeDelta := if 0 < acc.samples then acc.edgeDeltaSum / acc.samples else 0
          meanMotion := if 0 < acc.samples then acc.motionSum / acc.samples else 0 }
    else none
  (newState,
    { charGrid := acc.charGrid, lumaOut := luma2, lockCount := acc.locks
      decisionCount := acc.decisions, temporal := temporal })

/-- Reset decision of `render` lines 792–819 followed by the core: the
history is reset (and the applied signature refreshed) when temporal is
enabled and the history is invalid, the temporal signature changed, the cell
count changed, or the disciplined frame index is not exactly the last
temporal frame index plus one. -/
def renderTemporalFrame (cfg : TemporalConfig) (st : TemporalState)
    (cols rows : ℕ) (lumaIn : List ℚ) (sobelMag : List ℚ) (sobelMax : ℚ)
    (lookupIdx : ℕ → ℕ → ℕ) (naiveCharF : ℕ → ℕ → ℚ → Char)
    (frameIndex : JsNumber) (shockProgress : Option ℚ) :
    TemporalState × FrameOut :=
  let shockIntensity := shockIntensityOf shockProgress
  let disciplined := disciplineFrameIndex frameIndex
  let sampleLen := cols * rows
  let configChanged := cfg.signature ≠ st.appliedSignature
  let lenChanged := st.lastSampleLen ≠ sampleLen
  let frameDiscontinuity := 0 ≤ st.lastFrameIndex ∧ (disciplined : ℤ) ≠ st.lastFrameIndex + 1
  let requiresReset :=
    cfg.temporalEnabled = true ∧
      (st.historyValid = false ∨ configChanged ∨ lenChanged ∨ frameDiscontinuity)
  let st1 :=
    if requiresReset then
      { resetTemporalState st sampleLen with appliedSignature := cfg.signature }
    else st
  renderTemporalCore cfg st1 cols rows lumaIn sobelMag sobelMax lookupIdx naiveCharF
    disciplined shockIntensity

/-- The built-in `standard` ramp `" .:-=+*#%@"` split into grapheme symbols
(every symbol is a single ASCII character, so grapheme and character
segmentation coincide). -/
def standardRampSymbols : List Char :=
  [' ', '.', ':', '-', '=', '+', '*', '#', '%', '@']

/-- The default ramp-index glyph path of `getChar` (no custom ramp, mode not
SEMANTIC/MATRIX/ANSI_BLOCK): `ramp[floor(b*(len-1))]` with
`b = inverted ? 1 - brightness : brightness` and the index clamped into
range. -/
def getCharRampIdx (ramp : List Char) (inverted : Bool) (brightness : ℚ) : Char :=
  if ramp.length = 0 then ' '
  else
    let b := if inverted then 1 - brightness else brightness
    let index := ⌊b * ((ramp.length : ℚ) - 1)⌋
    ramp.getD (max 0 (min index ((ramp.length : ℤ) - 1))).toNat ' '

/-! ## Color grading (real-valued: hue rotation and gamma are
transcendental) -/

/-- `clamp01` on the reals, for the graded channels. -/
noncomputable def clamp01R (v : ℝ) : ℝ := max 0 (min 1 v)

theorem clamp01R_nonneg (v : ℝ) : 0 ≤ clamp01R v := le_max_left 0 _

theorem clamp01R_le_one (v : ℝ) : clamp01R v ≤ 1 := by
  unfold clamp01R
  rcases le_total (min 1 v) 0 with h | h
  · simp [max_eq_left h]
  · simp [max_eq_right h, min_le_left]

/-- The grading parameters `applyGrading` destructures from the config. -/
structure GradingParams where
  brightness : ℝ
  contrast : ℝ
  hue : ℝ
  saturation : ℝ
  lightness : ℝ
  gamma : ℝ

/-- The per-pixel body of `applyGrading`: contrast/brightness around
mid-gray, the luminance-preserving hue-rotation matrix, saturation lerp
toward luminance, lightness scale, gamma via `pow(max(0,x), 1/gamma)` with
the `0.0001` gamma floor, and the final `clamp01` per color channel; alpha
is scaled to `[0,1]` untouched by the rest.  Inputs are the raw 8-bit
samples. -/
noncomputable def gradePixel (p : GradingParams) (dr dg db da : ℕ) : ℝ × ℝ × ℝ × ℝ :=
  let invGamma := 1 / max 0.0001 p.gamma
  let cosH := Real.cos (p.hue * Real.pi / 180)
  let sinH := Real.sin (p.hue * Real.pi / 180)
  let s := Real.sqrt (1 / 3)
  let m0 := cosH + (1 - cosH) / 3
  let mA := (1 - cosH) / 3 - s * sinH
  let mB := (1 - cosH) / 3 + s * sinH
  let r0 := (dr : ℝ) / 255
  let g0 := (dg : ℝ) / 255
  let b0 := (db : ℝ) / 255
  let r1 := (r0 - 1/2) * p.contrast + 1/2 + (p.brightness - 1)
  let g1 := (g0 - 1/2) * p.contrast + 1/2 + (p.brightness - 1)
  let b1 := (b0 - 1/2) * p.contrast + 1/2 + (p.brightness - 1)
  let tr := r1 * m0 + g1 * mA + b1 * mB
  let tg := r1 * mB + g1 * m0 + b1 * mA
  let tb := r1 * mA + g1 * mB + b1 * m0
  let lum := 0.299 * tr + 0.587 * tg + 0.114 * tb
  let r2 := lum + (tr - lum) * p.saturation
  let g2 := lum + (tg - lum) * p.saturation
  let b2 := lum + (tb - lum) * p.saturation
  let r3 := r2 * p.lightness
  let g3 := g2 * p.lightness
  let b3 := b2 * p.lightness
  let r4 := (max 0 r3) ^ invGamma
  let g4 := (max 0 g3) ^ invGamma
  let b4 := (max 0 b3) ^ invGamma
  (clamp01R r4, clamp01R g4, clamp01R b4, (da : ℝ) / 255)

/-- `applyGrading`: the per-pixel transform mapped over the raw RGBA sample
buffer (one 4-tuple of 8-bit samples per cell). -/
noncomputable def applyGrading (p : GradingParams) (data : List (ℕ × ℕ × ℕ × ℕ)) :
    List (ℝ × ℝ × ℝ × ℝ) :=
  data.map (fun q => gradePixel p q.1 q.2.1 q.2.2.1 q.2.2.2)

/-! ## Edge classification -/

/-- `SOBEL_MAX_MAGNITUDE = 4 * Math.sqrt(2)`. -/
noncomputable def SOBEL_MAX_MAGNITUDE : ℝ := 4 * Real.sqrt 2

/-- `edgeThreshold = clamp01(1 - config.outlineSensitivity) *
SOBEL_MAX_MAGNITUDE` (line 878). -/
noncomputable def edgeThreshold (sensitivity : ℝ) : ℝ :=
  clamp01R (1 - sensitivity) * SOBEL_MAX_MAGNITUDE

/-- Edge classification of one cell (line 975): its Sobel magnitude strictly
exceeds the threshold. -/
def isEdgeCell (sensitivity : ℝ) (magnitude : ℝ) : Prop :=
  edgeThreshold sensitivity < magnitude

open Classical in
/-- Number of cells of a fixed frame (its list of Sobel magnitudes)
classified as edges at the given sensitivity. -/
noncomputable def edgeCellCount (mags : List ℝ) (sensitivity : ℝ) : ℕ :=
  (mags.filter (fun m => edgeThreshold sensitivity < m)).length

/-! ## Color resolver -/

/-- Lowercase hex digit for `rgbToHex`. -/
def hexDigitChar (n : ℕ) : Char :=
  if n < 10 then Char.ofNat ('0'.toNat + n) else Char.ofNat ('a'.toNat + (n - 10))

/-- Two-digit lowercase hex rendering of a byte. -/
def byteToHex (n : ℕ) : List Char := [hexDigitChar (n / 16), hexDigitChar (n % 16)]

/-- `rgbToHex`: round and clamp each channel to 0–255 and render
`#rrggbb`. -/
def rgbToHex (r g b : ℚ) : String :=
  let rr := (max 0 (min 255 (round r))).toNat
  let gg := (max 0 (min 255 (round g))).toNat
  let bb := (max 0 (min 255 (round b))).toNat
  ⟨'#' :: (byteToHex rr ++ byteToHex gg ++ byteToHex bb)⟩

/-- Configuration slice consumed by the fill-color resolution of lines
1024–1054.  `gradientLut` stands for the 256-entry lookup table
`getGradientLut(palette)` precomputes for GRADIENT mode; `palette` is the
defaulted palette of line 837 (nonempty in every render). -/
structure ResolveCtx where
  colorMode : ColorMode
  outlineColor : String
  palette : List String
  gradientLut : List String
  colorizeDither : Bool
  ditheringMode : DitheringMode
  dithering : ℚ

/-- The RGB value the FULL/QUANTIZED branch of the color resolver actually
works on (lines 1030–1047): the cell's graded RGB, re-perturbed by the
ordered-dither matrix when colorize-dither Bayer is active, then pushed
toward the shock tint while a shock is in progress. -/
def resolverInputRGB (ctx : ResolveCtx) (x y : ℕ)
    (r g b shockIntensity : ℚ) : ℚ × ℚ × ℚ :=
  let bayered :=
    if ctx.colorizeDither ∧ ctx.ditheringMode = DitheringMode.BAYER ∧ 0 < ctx.dithering then
      let bayer := bayerOffset x y ctx.dithering
      (clamp01 (r + bayer), clamp01 (g + bayer), clamp01 (b + bayer))
    else (r, g, b)
  if 0 < shockIntensity then
    (clamp01 (bayered.1 + shockIntensity * (2/5)),
     clamp01 (bayered.2.1 - shockIntensity * (1/10)),
     clamp01 (bayered.2.2 + shockIntensity * (1/10)))
  else bayered

/-- The fill-color decision for one drawn glyph cell (lines 1024–1054):
edge cells take the outline color; MONO takes `palette[1]` (or the
`#00ff00` fallback); GRADIENT indexes the LUT by luminance; FULL/QUANTIZED
take the (possibly dither-perturbed, shock-tinted) graded RGB and either
quantize it to the nearest palette color or render it directly. -/
def resolveColor (ctx : ResolveCtx) (isEdge : Bool) (x y : ℕ)
    (r g b : ℚ) (luminance shockIntensity : ℚ) : String :=
  if isEdge then ctx.outlineColor
  else if ctx.colorMode = ColorMode.MONO then ctx.palette.getD 1 "#00ff00"
  else if ctx.colorMode = ColorMode.GRADIENT then
    ctx.gradientLut.getD (max 0 (min 255 (round (luminance * 255)))).toNat "#ffffff"
  else
    let input := resolverInputRGB ctx x y r g b shockIntensity
    if ctx.colorMode = ColorMode.QUANTIZED then
      findNearestColor (input.1 * 255) (input.2.1 * 255) (input.2.2 * 255) ctx.palette
    else
      let rr := round (input.1 * 255)
      let gg := round (input.2.1 * 255)
      let bb := round (input.2.2 * 255)
      "rgb(" ++ toString rr ++ "," ++ toString gg ++ "," ++ toString bb ++ ")"

/-! ## Metrics aggregation and the top-level render entry -/

/-- Insert one occurrence of a glyph into the count map (first-appearance
order). -/
def bumpCount : List (Char × ℕ) → Char → List (Char × ℕ)
  | [], c => [(c, 1)]
  | (d, n) :: rest, c =>
    if d = c then (d, n + 1) :: rest else (d, n) :: bumpCount rest c

/-- The `charCounts` record accumulated over the frame's drawn (non-space)
glyphs. -/
def charCountsOf (grid : List Char) : List (Char × ℕ) :=
  grid.foldl (fun acc c => if c = ' ' then acc else bumpCount acc c) []

/-- Normalized Shannon entropy of the glyph histogram (lines 1142–1151):
`-Σ p log2 p` over the non-space histogram, divided by
`log2(max(1, distinct))` when that is positive, and `0` with no non-space
cells. -/
noncomputable def entropyOf (counts : List (Char × ℕ)) (nonSpace : ℕ) : ℝ :=
  if 0 < nonSpace then
    let e := -((counts.map
      (fun p => ((p.2 : ℝ) / nonSpace) * Real.logb 2 ((p.2 : ℝ) / nonSpace))).sum)
    let maxEntropy := Real.logb 2 ((max 1 counts.length : ℕ) : ℝ)
    if 0 < maxEntropy then e / maxEntropy else 0
  else 0

/-- `RenderMetrics` of the render result. -/
structure RenderMetrics where
  averageLuminance : ℚ
  density : ℚ
  entropy : ℝ
  dominantColor : String
  temporal : Option TemporalMetrics

/-- What `render` returns. -/
structure RenderResult where
  charCounts : List (Char × ℕ)
  metrics : RenderMetrics

/-- The zero-valued result of the frame-absent early return (line 745). -/
def emptyRenderResult : RenderResult :=
  { charCounts := []
    metrics :=
      { averageLuminance := 0, density := 0, entropy := 0
        dominantColor := "#000000", temporal := none } }

/-- Configuration slice of the top-level render model: the temporal fields
plus the palette/color-mode fields the dithering and metrics stages read. -/
structure RenderConfig where
  temporal : TemporalConfig
  colorMode : ColorMode
  palette : List String

/-- The top-level `render` entry: the frame-absent early return (lines
744–746), the palette defaulting (line 837), the colorized Floyd–Steinberg
pass over the graded buffer (lines 840–850), the luma derivation and graded
sums (lines 852–864), the temporal slice, and the metrics aggregation
(lines 1136–1158).  `graded` is the graded RGBA buffer `applyGrading`
produced (stride 4, `sampleLen = cols * rows` cells); the compositing
canvas work is dropped. -/
noncomputable def render (hasSource hasBrush : Bool) (cfg : RenderConfig)
    (st : TemporalState) (cols rows : ℕ) (graded : List ℚ)
    (sobelMag : List ℚ) (sobelMax : ℚ) (lookupIdx : ℕ → ℕ → ℕ)
    (naiveCharF : ℕ → ℕ → ℚ → Char) (frameIndex : JsNumber)
    (shockProgress : Option ℚ) : TemporalState × RenderResult :=
  if hasSource = false ∧ hasBrush = false then (st, emptyRenderResult)
  else
    let sampleLen := cols * rows
    let palette := if cfg.palette.length = 0 then ["#000000", "#ffffff"] else cfg.palette
    let graded1 :=
      if 0 < cfg.temporal.dithering ∧ cfg.temporal.ditheringMode = DitheringMode.FLOYD ∧
          cfg.temporal.colorizeDither = true then
        applyFloydSteinbergRGB graded cols rows cfg.temporal.dithering
          (cfg.colorMode = ColorMode.QUANTIZED) palette
      else graded
    let lumaIn := (List.range sampleLen).map (fun i =>
      (299/1000 : ℚ) * graded1.getD (i * 4) 0 + (587/1000) * graded1.getD (i * 4 + 1) 0 +
        (114/1000) * graded1.getD (i * 4 + 2) 0)
    let sumR := ((List.range sampleLen).map (fun i => graded1.getD (i * 4) 0)).sum
    let sumG := ((List.range sampleLen).map (fun i => graded1.getD (i * 4 + 1) 0)).sum
    let sumB := ((List.range sampleLen).map (fun i => graded1.getD (i * 4 + 2) 0)).sum
    let stepped := renderTemporalFrame cfg.temporal st cols rows lumaIn sobelMag sobelMax
      lookupIdx naiveCharF frameIndex shockProgress
    let out := stepped.2
    let counts := charCountsOf out.charGrid
    let nonSpace := (out.charGrid.filter (fun c => c ≠ ' ')).length
    let lumSum := out.lumaOut.sum
    let avgLum := lumSum / (sampleLen : ℚ)
    let density := (nonSpace : ℚ) / (sampleLen : ℚ)
    let entropy := entropyOf counts nonSpace
    let dominantColor := rgbToHex (sumR / sampleLen * 255) (sumG / sampleLen * 255)
      (sumB / sampleLen * 255)
    (stepped.1,
      { charCounts := counts
        metrics :=
          { averageLuminance := avgLum, density := density, entropy := entropy
            dominantColor := dominantColor, temporal := out.temporal } })

/-! ## Loop projection lemmas -/

theorem processCell_no_history (P : CellCtx) (h : P.hasHistory = false) (i : ℕ) :
    (processCell P i).decided = false ∧ (processCell P i).locked = false := by
  unfold processCell cellPersists cellDecisionGate
  simp [h]

theorem loopStep_locks (P : CellCtx) (acc : LoopAcc) (i : ℕ) :
    (loopStep P acc i).locks =
      acc.locks + (if (processCell P i).locked then 1 else 0) := rfl

theorem loopStep_decisions (P : CellCtx) (acc : LoopAcc) (i : ℕ) :
    (loopStep P acc i).decisions =
      acc.decisions + (if (processCell P i).decided then 1 else 0) := rfl

theorem loopStep_samples (P : CellCtx) (acc : LoopAcc) (i : ℕ) :
    (loopStep P acc i).samples =
      acc.samples + (if P.hasHistory then 1 else 0) := rfl

theorem loopStep_charGrid (P : CellCtx) (acc : LoopAcc) (i : ℕ) :
    (loopStep P acc i).charGrid = acc.charGrid ++ [(processCell P i).finalChar] := rfl

theorem foldl_loopStep_locks (P : CellCtx) (l : List ℕ) (acc : LoopAcc) :
    (l.foldl (loopStep P) acc).locks =
      acc.locks + (l.map (fun i => if (processCell P i).locked then 1 else 0)).sum := by
  induction l generalizing acc with
  | nil => simp
  | cons a t ih => simp [List.foldl_cons, ih, loopStep_locks, Nat.add_assoc]

theorem foldl_loopStep_decisions (P : CellCtx) (l : List ℕ) (acc : LoopAcc) :
    (l.foldl (loopStep P) acc).decisions =
      acc.decisions + (l.map (fun i => if (processCell P i).decided then 1 else 0)).sum := by
  induction l generalizing acc with
  | nil => simp
  | cons a t ih => simp [List.foldl_cons, ih, loopStep_decisions, Nat.add_assoc]

theorem foldl_loopStep_samples (P : CellCtx) (l : List ℕ) (acc : LoopAcc) :
    (l.foldl (loopStep P) acc).samples =
      acc.samples + l.length * (if P.hasHistory then 1 else 0) := by
  induction l generalizing acc with
  | nil => simp
  | cons a t ih =>
    simp [List.foldl_cons, ih, loopStep_samples]
    split_ifs <;> omega

theorem foldl_loopStep_charGrid (P : CellCtx) (l : List ℕ) (acc : LoopAcc) :
    (l.foldl (loopStep P) acc).charGrid =
      acc.charGrid ++ l.map (fun i => (processCell P i).finalChar) := by
  induction l generalizing acc with
  | nil => simp
  | cons a t ih => simp [List.foldl_cons, ih, loopStep_charGrid]

theorem runCells_locks (P : CellCtx) (n : ℕ) :
    (runCells P n).locks =
      ((List.range n).map (fun i => if (processCell P i).locked then 1 else 0)).sum := by
  unfold runCells
  rw [foldl_loopStep_locks]
  simp

theorem runCells_decisions (P : CellCtx) (n : ℕ) :
    (runCells P n).decisions =
      ((List.range n).map (fun i => if (processCell P i).decided then 1 else 0)).sum := by
  unfold runCells
  rw [foldl_loopStep_decisions]
  simp

theorem runCells_samples (P : CellCtx) (n : ℕ) :
    (runCells P n).samples = n * (if P.hasHistory then 1 else 0) := by
  unfold runCells
  rw [foldl_loopStep_samples]
  simp

theorem runCells_charGrid (P : CellCtx) (n : ℕ) :
    (runCells P n).charGrid = (List.range n).map (fun i => (processCell P i).finalChar) := by
  unfold runCells
  rw [foldl_loopStep_charGrid]
  simp

theorem runCells_no_history (P : CellCtx) (h : P.hasHistory = false) (n : ℕ) :
    (runCells P n).locks = 0 ∧ (runCells P n).decisions = 0 ∧ (runCells P n).samples = 0 := by
  refine ⟨?_, ?_, ?_⟩
  · rw [runCells_locks]
    apply List.sum_eq_zero
    intro x hx
    obtain ⟨i, _, hi⟩ := List.mem_map.mp hx
    rw [(processCell_no_history P h i).2] at hi
    simpa using hi.symm
  · rw [runCells_decisions]
    apply List.sum_eq_zero
    intro x hx
    obtain ⟨i, _, hi⟩ := List.mem_map.mp hx
    rw [(processCell_no_history P h i).1] at hi
    simpa using hi.symm
  · rw [runCells_samples, h]
    simp

/-- With invalid history, the frame is processed without temporal history:
no persistence decisions are taken and the temporal summary is all-zero. -/
theorem renderTemporalCore_invalid (cfg : TemporalConfig) (st1 : TemporalState)
    (cols rows : ℕ) (lumaIn sobelMag : List ℚ) (sobelMax : ℚ)
    (lookupIdx : ℕ → ℕ → ℕ) (naiveCharF : ℕ → ℕ → ℚ → Char)
    (disciplined : ℕ) (shockIntensity : ℚ)
    (hen : cfg.temporalEnabled = true) (hv : st1.historyValid = false) :
    (renderTemporalCore cfg st1 cols rows lumaIn sobelMag sobelMax lookupIdx naiveCharF
        disciplined shockIntensity).2.lockCount = 0 ∧
    (renderTemporalCore cfg st1 cols rows lumaIn sobelMag sobelMax lookupIdx naiveCharF
        disciplined shockIntensity).2.decisionCount = 0 ∧
    (renderTemporalCore cfg st1 cols rows lumaIn sobelMag sobelMax lookupIdx naiveCharF
        disciplined shockIntensity).2.temporal = some ⟨0, 0, 0, 0⟩ := by
  unfold renderTemporalCore
  simp only [hv, hen]
  constructor
  · simp [hv, runCells_no_history]
  constructor
  · simp [hv, runCells_no_history]
  · simp [hv, runCells_no_history, runCells_samples]

/-! ## Claims -/

/-- C1: rendering a frame with temporal enabled when the disciplined frame
index is not exactly the previous temporal frame index plus one, or the
temporal signature differs from the applied one, or the cell count changed,
forces a full history reset before the frame is processed: no persistence
decision is taken, no glyph is locked, and the reported lock ratio (with the
other temporal means) is 0. -/
theorem temporal_reset_forces_zero_lock_ratio
    (cfg : TemporalConfig) (st : TemporalState) (cols rows : ℕ)
    (lumaIn sobelMag : List ℚ) (sobelMax : ℚ)
    (lookupIdx : ℕ → ℕ → ℕ) (naiveCharF : ℕ → ℕ → ℚ → Char)
    (frameIndex : JsNumber) (shockProgress : Option ℚ)
    (hen : cfg.temporalEnabled = true)
    (hbreach :
      (0 ≤ st.lastFrameIndex ∧
        (disciplineFrameIndex frameIndex : ℤ) ≠ st.lastFrameIndex + 1) ∨
      cfg.signature ≠ st.appliedSignature ∨
      st.lastSampleLen ≠ cols * rows) :
    (renderTemporalFrame cfg st cols rows lumaIn sobelMag sobelMax lookupIdx naiveCharF
        frameIndex shockProgress).2.lockCount = 0 ∧
    (renderTemporalFrame cfg st cols rows lumaIn sobelMag sobelMax lookupIdx naiveCharF
        frameIndex shockProgress).2.decisionCount = 0 ∧
    (renderTemporalFrame cfg st cols rows lumaIn sobelMag sobelMax lookupIdx naiveCharF
        frameIndex shockProgress).2.temporal = some ⟨0, 0, 0, 0⟩ := by
  have hreset : cfg.temporalEnabled = true ∧
      (st.historyValid = false ∨ cfg.signature ≠ st.appliedSignature ∨
        st.lastSampleLen ≠ cols * rows ∨
        (0 ≤ st.lastFrameIndex ∧
          ((disciplineFrameIndex frameIndex : ℕ) : ℤ) ≠ st.lastFrameIndex + 1)) := by
    refine ⟨hen, ?_⟩
    rcases hbreach with h | h | h
    · exact Or.inr (Or.inr (Or.inr h))
    · exact Or.inr (Or.inl h)
    · exact Or.inr (Or.inr (Or.inl h))
  unfold renderTemporalFrame
  simp only [if_pos hreset]
  exact renderTemporalCore_invalid cfg _ cols rows lumaIn sobelMag sobelMax lookupIdx
    naiveCharF _ _ hen rfl

/-- Closed instance of C1: a frame-index jump (5 → 50) with temporal enabled
yields zero locks, zero decisions and an all-zero temporal summary. -/
theorem temporal_reset_forces_zero_lock_ratio_witness :
    ((0 : ℤ) ≤ 5 ∧ ((disciplineFrameIndex (some 50) : ℤ) ≠ 5 + 1)) ∧
    (renderTemporalFrame
        ⟨true, 1/2, 1/2, 1/5, false, 11/20, 9/20, DitheringMode.BAYER, 0, false, false, "sig"⟩
        ⟨[1/2, 1/2], [0, 0], ['=', '='], true, 5, 2, "sig"⟩ 2 1 [1/2, 1/2] []
        (5657/1000) (fun _ i => i)
        (fun _ _ lum => getCharRampIdx standardRampSymbols false lum)
        (some 50) none).2.temporal = some ⟨0, 0, 0, 0⟩ := by
  refine ⟨⟨by decide, by decide⟩, ?_⟩
  exact (temporal_reset_forces_zero_lock_ratio
    ⟨true, 1/2, 1/2, 1/5, false, 11/20, 9/20, DitheringMode.BAYER, 0, false, false, "sig"⟩
    ⟨[1/2, 1/2], [0, 0], ['=', '='], true, 5, 2, "sig"⟩ 2 1 [1/2, 1/2] []
    (5657/1000) (fun _ i => i)
    (fun _ _ lum => getCharRampIdx standardRampSymbols false lum)
    (some 50) none rfl (Or.inl ⟨by decide, by decide⟩)).2.2

/-- C2: for a cell whose naive glyph differs from the previous frame's glyph
(history valid, inertia positive, no shock), the previous glyph persists
exactly when the cell's luma delta is below the inertia threshold and
persistence is not forbidden: the base threshold is `0.02 + inertia*0.25`;
with adaptive inertia the threshold is the base shrunk by the motion/edge
factor (floored at 0.1) derived from the motion score, which weights the
normalized luma delta at 0.65 and the normalized edge-magnitude delta at
0.35; and persistence is forbidden outright once the motion score exceeds
`0.2 + ghostClamp*0.55`. -/
theorem cellAllowPersistence_iff (P : CellCtx) (i : ℕ) :
    cellAllowPersistence P i = true ↔
      ¬(P.adaptiveEnabled = true ∧
        1/5 + P.ghostClamp * (11/20) < cellMotionScore P i) := by
  unfold cellAllowPersistence
  rcases hA : P.adaptiveEnabled with _ | _ <;> simp [hA]

theorem cellInertiaThreshold_eq (P : CellCtx) (i : ℕ) :
    cellInertiaThreshold P i =
      (1/50 + P.inertia * (1/4)) *
        (if P.adaptiveEnabled then
          max (1/10)
            ((1 - P.adaptiveStrength * cellMotionScore P i) *
              (1 - P.adaptiveStrength * (1/2) * cellCurrentEdgeNorm P i))
        else 1) := by
  unfold cellInertiaThreshold
  rcases hA : P.adaptiveEnabled with _ | _ <;> simp [hA]

theorem temporal_persistence_characterization (P : CellCtx) (i : ℕ)
    (hh : P.hasHistory = true) (hin : 0 < P.inertia) (hsh : P.shockIntensity = 0)
    (hne : (processCell P i).naiveChar ≠ P.prevCharGrid.getD i ' ') :
    ((processCell P i).motionScore =
      clamp01 (clamp01 ((processCell P i).lumaDelta / (7/20)) * (13/20) +
        clamp01 ((processCell P i).edgeDeltaNorm) * (7/20))) ∧
    ((processCell P i).finalChar = P.prevCharGrid.getD i ' ' ↔
      (¬(P.adaptiveEnabled = true ∧
          1/5 + P.ghostClamp * (11/20) < (processCell P i).motionScore) ∧
        (processCell P i).lumaDelta <
          (1/50 + P.inertia * (1/4)) *
            (if P.adaptiveEnabled then
              max (1/10)
                ((1 - P.adaptiveStrength * (processCell P i).motionScore) *
                  (1 - P.adaptiveStrength * (1/2) * cellCurrentEdgeNorm P i))
            else 1))) := by
  have hne2 : cellPrevChar P i ≠ cellNaiveChar P i := by
    intro h
    exact hne (by simpa [processCell, cellPrevChar] using h.symm)
  have hgate : cellDecisionGate P i = true := by
    simp [cellDecisionGate, hh, hin, hsh, hne2]
  have hfields : (processCell P i).motionScore = cellMotionScore P i ∧
      (processCell P i).lumaDelta = cellLumaDelta P i ∧
      (processCell P i).edgeDeltaNorm = cellEdgeDeltaNorm P i := ⟨rfl, rfl, rfl⟩
  refine ⟨?_, ?_⟩
  · simp only [hfields.1, hfields.2.1, hfields.2.2, cellMotionScore, hh,
      computeTemporalMotionScore, if_true]
  · have hpersists_iff : (processCell P i).finalChar = P.prevCharGrid.getD i ' ' ↔
        cellPersists P i = true := by
      constructor
      · intro hfin
        by_contra hcon
        have hfalse : cellPersists P i = false := by
          cases h : cellPersists P i
          · rfl
          · exact absurd h hcon
        have : (processCell P i).finalChar = cellNaiveChar P i := by
          simp [processCell, hfalse]
        rw [this] at hfin
        exact hne2 hfin.symm
      · intro hp
        simp [processCell, hp, cellPrevChar]
    rw [hpersists_iff]
    unfold cellPersists
    rw [hgate]
    simp only [hfields.1, hfields.2.1, Bool.true_and, Bool.and_eq_true,
      decide_eq_true_eq, cellAllowPersistence_iff, ← cellInertiaThreshold_eq]

/-- Concrete cell context for the C2 witness: valid history, inertia 1/2,
no shock, a previous glyph `#` differing from the naive glyph at luma
1/2. -/
def persistWitnessCtx : CellCtx :=
  { cols := 2, sampleLen := 2, inertia := 1/2, adaptiveEnabled := false
    adaptiveStrength := 11/20, ghostClamp := 9/20, bayerActive := false
    dithering := 0, hasHistory := true, shockIntensity := 0, sobelMax := 5657/1000
    luma := [1/2, 1/2], edgeData := none, prevLuma := [1/2, 1/2]
    prevEdgeMag := [0, 0], prevCharGrid := ['#', '#'], frame := 1
    lookupIdx := fun _ i => i
    naiveCharF := fun _ _ lum => getCharRampIdx standardRampSymbols false lum }

set_option maxRecDepth 100000 in
/-- Closed instance of C2 at `persistWitnessCtx`. -/
theorem temporal_persistence_characterization_witness :
    (processCell persistWitnessCtx 0).finalChar =
        persistWitnessCtx.prevCharGrid.getD 0 ' ' ↔
      (¬(persistWitnessCtx.adaptiveEnabled = true ∧
          1/5 + persistWitnessCtx.ghostClamp * (11/20) <
            (processCell persistWitnessCtx 0).motionScore) ∧
        (processCell persistWitnessCtx 0).lumaDelta <
          (1/50 + persistWitnessCtx.inertia * (1/4)) *
            (if persistWitnessCtx.adaptiveEnabled then
              max (1/10)
                ((1 - persistWitnessCtx.adaptiveStrength *
                    (processCell persistWitnessCtx 0).motionScore) *
                  (1 - persistWitnessCtx.adaptiveStrength * (1/2) *
                    cellCurrentEdgeNorm persistWitnessCtx 0))
            else 1)) :=
  (temporal_persistence_characterization persistWitnessCtx 0 rfl
    (by norm_num [persistWitnessCtx]) rfl (by with_unfolding_all decide)).2

/-- Configuration with an out-of-range dithering amount (2), error-diffusion
mode, no colorize: the engine hands `config.dithering` to
`applyFloydSteinbergLuma` without clamping it. -/
def ditherCfgRaw : TemporalConfig :=
  ⟨false, 0, 0, 0, false, 0, 0, DitheringMode.FLOYD, 2, false, false, "s"⟩

/-- The same configuration with the amount clamped to `[0,1]`. -/
def ditherCfgClamped : TemporalConfig :=
  { ditherCfgRaw with dithering := clamp01 2 }

set_option maxRecDepth 100000 in
/-- Counterexample to C3 as stated: at configured amount 2 the error
diffusion uses strength 2, not `clamp01 2 = 1` — the two runs produce
different luma buffers, so the amount actually used is not the clamped
amount. -/
theorem dither_amount_clamp_counterexample :
    ditherCfgClamped.dithering = clamp01 ditherCfgRaw.dithering ∧
    (renderTemporalFrame ditherCfgRaw initialTemporalState 2 1 [1/32, 1/25] [] (5657/1000)
        (fun _ i => i) (fun _ _ _ => '#') (some 0) none).2.lumaOut ≠
      (renderTemporalFrame ditherCfgClamped initialTemporalState 2 1 [1/32, 1/25] []
        (5657/1000) (fun _ i => i) (fun _ _ _ => '#') (some 0) none).2.lumaOut := by
  constructor
  · with_unfolding_all decide
  · with_unfolding_all decide

/-- Changing only the dithering mode cannot be observed by the temporal
slice once the amount is 0: every dithering guard also requires a positive
amount. -/
theorem renderTemporalFrame_dither_zero_mode_irrelevant (cfg : TemporalConfig)
    (st : TemporalState) (cols rows : ℕ) (lumaIn sobelMag : List ℚ) (sobelMax : ℚ)
    (lookupIdx : ℕ → ℕ → ℕ) (naiveCharF : ℕ → ℕ → ℚ → Char)
    (frameIndex : JsNumber) (shockProgress : Option ℚ)
    (h : cfg.dithering = 0) :
    renderTemporalFrame cfg st cols rows lumaIn sobelMag sobelMax lookupIdx naiveCharF
        frameIndex shockProgress =
      renderTemporalFrame { cfg with ditheringMode := DitheringMode.NONE } st cols rows
        lumaIn sobelMag sobelMax lookupIdx naiveCharF frameIndex shockProgress := by
  unfold renderTemporalFrame renderTemporalCore
  simp [h]

/-- C3 (amended): the engine uses the configured amount as-is (no internal
clamping — see the counterexample), and amount 0 is a no-op for either
algorithm: the run is identical to the non-dithered (`ditheringMode NONE`)
path, luma and RGB buffers included. -/
theorem dither_zero_noop (hasSource hasBrush : Bool) (cfg : RenderConfig)
    (st : TemporalState) (cols rows : ℕ) (graded sobelMag : List ℚ) (sobelMax : ℚ)
    (lookupIdx : ℕ → ℕ → ℕ) (naiveCharF : ℕ → ℕ → ℚ → Char)
    (frameIndex : JsNumber) (shockProgress : Option ℚ)
    (h : cfg.temporal.dithering = 0) :
    render hasSource hasBrush cfg st cols rows graded sobelMag sobelMax lookupIdx
        naiveCharF frameIndex shockProgress =
      render hasSource hasBrush
        { cfg with temporal := { cfg.temporal with ditheringMode := DitheringMode.NONE } }
        st cols rows graded sobelMag sobelMax lookupIdx naiveCharF frameIndex
        shockProgress := by
  unfold render
  by_cases hsb : hasSource = false ∧ hasBrush = false
  · simp [hsb]
  · simp only [if_neg hsb]
    rw [← renderTemporalFrame_dither_zero_mode_irrelevant cfg.temporal st cols rows _
      sobelMag sobelMax lookupIdx naiveCharF frameIndex shockProgress h]
    simp [h]

/-- Configuration with dithering amount 0 (Bayer mode flag set, which the
zero amount makes inert). -/
def ditherCfgZero : TemporalConfig :=
  ⟨false, 0, 0, 0, false, 0, 0, DitheringMode.BAYER, 0, false, false, "s"⟩

/-- Closed instance of the amended C3 at a concrete configuration with
amount 0. -/
theorem dither_zero_noop_witness :
    render true false ⟨ditherCfgZero, ColorMode.FULL, ["#000000", "#ffffff"]⟩
        initialTemporalState 2 1 [1/2, 1/2, 1/2, 1, 1/4, 1/4, 1/4, 1] [] (5657/1000)
        (fun _ i => i) (fun _ _ _ => '#') (some 0) none =
      render true false
        ⟨{ ditherCfgZero with ditheringMode := DitheringMode.NONE }, ColorMode.FULL,
          ["#000000", "#ffffff"]⟩
        initialTemporalState 2 1 [1/2, 1/2, 1/2, 1, 1/4, 1/4, 1/4, 1] [] (5657/1000)
        (fun _ i => i) (fun _ _ _ => '#') (some 0) none :=
  dither_zero_noop true false ⟨ditherCfgZero, ColorMode.FULL, ["#000000", "#ffffff"]⟩
    initialTemporalState 2 1 [1/2, 1/2, 1/2, 1, 1/4, 1/4, 1/4, 1] [] (5657/1000)
    (fun _ i => i) (fun _ _ _ => '#') (some 0) none rfl

/-- C9: a frame rendered with temporal disabled clears every temporal field
(empty previous luma/edge/glyph buffers, invalid flag, frame index −1, cell
count 0, empty signature); consequently the first temporal-enabled frame
after it starts without history: no persistence decision fires, nothing
locks, and the reported lock ratio is 0. -/
theorem temporal_disabled_frame_clears_history
    (cfg : TemporalConfig) (st : TemporalState) (cols rows : ℕ)
    (lumaIn sobelMag : List ℚ) (sobelMax : ℚ)
    (lookupIdx : ℕ → ℕ → ℕ) (naiveCharF : ℕ → ℕ → ℚ → Char)
    (frameIndex : JsNumber) (shockProgress : Option ℚ)
    (hdis : cfg.temporalEnabled = false) :
    (renderTemporalFrame cfg st cols rows lumaIn sobelMag sobelMax lookupIdx naiveCharF
        frameIndex shockProgress).1 = initialTemporalState ∧
    ∀ (cfg' : TemporalConfig) (cols' rows' : ℕ) (lumaIn' sobelMag' : List ℚ)
      (sobelMax' : ℚ) (lookupIdx' : ℕ → ℕ → ℕ) (naiveCharF' : ℕ → ℕ → ℚ → Char)
      (frameIndex' : JsNumber) (shockProgress' : Option ℚ),
      cfg'.temporalEnabled = true →
      (renderTemporalFrame cfg'
          (renderTemporalFrame cfg st cols rows lumaIn sobelMag sobelMax lookupIdx
            naiveCharF frameIndex shockProgress).1
          cols' rows' lumaIn' sobelMag' sobelMax' lookupIdx' naiveCharF' frameIndex'
          shockProgress').2.lockCount = 0 ∧
      (renderTemporalFrame cfg'
          (renderTemporalFrame cfg st cols rows lumaIn sobelMag sobelMax lookupIdx
            naiveCharF frameIndex shockProgress).1
          cols' rows' lumaIn' sobelMag' sobelMax' lookupIdx' naiveCharF' frameIndex'
          shockProgress').2.temporal = some ⟨0, 0, 0, 0⟩ := by
  have hclear : (renderTemporalFrame cfg st cols rows lumaIn sobelMag sobelMax lookupIdx
      naiveCharF frameIndex shockProgress).1 = initialTemporalState := by
    unfold renderTemporalFrame renderTemporalCore
    simp [hdis]
  refine ⟨hclear, ?_⟩
  intro cfg' cols' rows' lumaIn' sobelMag' sobelMax' lookupIdx' naiveCharF' frameIndex'
    shockProgress' hen'
  rw [hclear]
  have hreset : cfg'.temporalEnabled = true ∧
      (initialTemporalState.historyValid = false ∨
        cfg'.signature ≠ initialTemporalState.appliedSignature ∨
        initialTemporalState.lastSampleLen ≠ cols' * rows' ∨
        (0 ≤ initialTemporalState.lastFrameIndex ∧
          ((disciplineFrameIndex frameIndex' : ℕ) : ℤ) ≠
            initialTemporalState.lastFrameIndex + 1)) :=
    ⟨hen', Or.inl rfl⟩
  unfold renderTemporalFrame
  simp only [if_pos hreset]
  have := renderTemporalCore_invalid cfg'
    { resetTemporalState initialTemporalState (cols' * rows') with
        appliedSignature := cfg'.signature }
    cols' rows' lumaIn' sobelMag' sobelMax' lookupIdx' naiveCharF'
    (disciplineFrameIndex frameIndex') (shockIntensityOf shockProgress') hen' rfl
  exact ⟨this.1, this.2.2⟩

/-- Closed instance of C9: rendering with temporal off from a filled history
state clears it, and the next temporal-enabled frame reports zero locks and
an all-zero temporal summary. -/
theorem temporal_disabled_frame_clears_history_witness :
    (renderTemporalFrame
        ⟨false, 1/2, 1/2, 1/5, false, 11/20, 9/20, DitheringMode.BAYER, 0, false, false, "sig"⟩
        ⟨[1/2, 1/2], [0, 0], ['=', '='], true, 4, 2, "sig"⟩ 2 1 [1/2, 1/2] []
        (5657/1000) (fun _ i => i) (fun _ _ _ => '#') (some 5) none).1 =
      initialTemporalState ∧
    (renderTemporalFrame
        ⟨true, 1/2, 1/2, 1/5, false, 11/20, 9/20, DitheringMode.BAYER, 0, false, false, "sig"⟩
        (renderTemporalFrame
          ⟨false, 1/2, 1/2, 1/5, false, 11/20, 9/20, DitheringMode.BAYER, 0, false, false, "sig"⟩
          ⟨[1/2, 1/2], [0, 0], ['=', '='], true, 4, 2, "sig"⟩ 2 1 [1/2, 1/2] []
          (5657/1000) (fun _ i => i) (fun _ _ _ => '#') (some 5) none).1
        2 1 [1/2, 1/2] [] (5657/1000) (fun _ i => i) (fun _ _ _ => '#')
        (some 6) none).2.temporal = some ⟨0, 0, 0, 0⟩ := by
  have h := temporal_disabled_frame_clears_history
    ⟨false, 1/2, 1/2, 1/5, false, 11/20, 9/20, DitheringMode.BAYER, 0, false, false, "sig"⟩
    ⟨[1/2, 1/2], [0, 0], ['=', '='], true, 4, 2, "sig"⟩ 2 1 [1/2, 1/2] []
    (5657/1000) (fun _ i => i) (fun _ _ _ => '#') (some 5) none rfl
  exact ⟨h.1, (h.2
    ⟨true, 1/2, 1/2, 1/5, false, 11/20, 9/20, DitheringMode.BAYER, 0, false, false, "sig"⟩
    2 1 [1/2, 1/2] [] (5657/1000) (fun _ i => i) (fun _ _ _ => '#') (some 6) none rfl).2⟩

theorem zip_self_blend (l : List ℚ) (a : ℚ) :
    (l.zip l).map (fun p => p.1 * (1 - a) + p.2 * a) = l := by
  induction l with
  | nil => rfl
  | cons x t ih =>
    simp only [List.zip_cons_cons, List.map_cons, ih, List.cons.injEq, and_true]
    ring

/-- Blending a buffer with itself is the identity (pointwise
`l*(1-a) + l*a = l`). -/
theorem applyTemporalBlend_self (l : List ℚ) (blend : ℚ) :
    applyTemporalBlend l l blend = l := by
  unfold applyTemporalBlend
  simp only []
  split_ifs with h
  · rfl
  · exact zip_self_blend l (clamp01 blend)

theorem foldl_loopStep_lumaDeltaSum (P : CellCtx) (l : List ℕ) (acc : LoopAcc) :
    (l.foldl (loopStep P) acc).lumaDeltaSum =
      acc.lumaDeltaSum +
        (l.map (fun i => if P.hasHistory then (processCell P i).lumaDelta else 0)).sum := by
  induction l generalizing acc with
  | nil => simp
  | cons a t ih =>
    simp only [List.foldl_cons, ih, List.map_cons, List.sum_cons]
    show acc.lumaDeltaSum + (if P.hasHistory then (processCell P a).lumaDelta else 0) + _ = _
    ring

theorem foldl_loopStep_edgeDeltaSum (P : CellCtx) (l : List ℕ) (acc : LoopAcc) :
    (l.foldl (loopStep P) acc).edgeDeltaSum =
      acc.edgeDeltaSum +
        (l.map (fun i => if P.hasHistory then (processCell P i).edgeDeltaNorm else 0)).sum := by
  induction l generalizing acc with
  | nil => simp
  | cons a t ih =>
    simp only [List.foldl_cons, ih, List.map_cons, List.sum_cons]
    show acc.edgeDeltaSum + (if P.hasHistory then (processCell P a).edgeDeltaNorm else 0) + _ = _
    ring

theorem foldl_loopStep_motionSum (P : CellCtx) (l : List ℕ) (acc : LoopAcc) :
    (l.foldl (loopStep P) acc).motionSum =
      acc.motionSum +
        (l.map (fun i => if P.hasHistory then (processCell P i).motionScore else 0)).sum := by
  induction l generalizing acc with
  | nil => simp
  | cons a t ih =>
    simp only [List.foldl_cons, ih, List.map_cons, List.sum_cons]
    show acc.motionSum + (if P.hasHistory then (processCell P a).motionScore else 0) + _ = _
    ring

theorem computeTemporalMotionScore_zero : computeTemporalMotionScore 0 0 = 0 := by
  norm_num [computeTemporalMotionScore, clamp01]

/-- With no edge data and zero luma delta, the cell's temporal signals are
all zero. -/
theorem processCell_zero_delta_signals (P : CellCtx) (i : ℕ)
    (hd : cellLumaDelta P i = 0) (he : P.edgeData = none) :
    (processCell P i).lumaDelta = 0 ∧ (processCell P i).edgeDeltaNorm = 0 ∧
      (processCell P i).motionScore = 0 := by
  have hedge : cellEdgeDeltaNorm P i = 0 := by
    unfold cellEdgeDeltaNorm
    simp [he]
  have hmot : cellMotionScore P i = 0 := by
    unfold cellMotionScore
    rw [hd, hedge]
    split_ifs <;> simp [computeTemporalMotionScore_zero]
  exact ⟨hd, hedge, hmot⟩

/-- With no edge data and zero luma delta, a gated cell always persists: the
motion score is zero (below every non-negative ghost cutoff) and the
threshold equals the positive base threshold. -/
theorem cellPersists_of_zero_delta (P : CellCtx) (i : ℕ)
    (hd : cellLumaDelta P i = 0) (he : P.edgeData = none)
    (hg : 0 ≤ P.ghostClamp) :
    cellPersists P i = cellDecisionGate P i := by
  by_cases hgate : cellDecisionGate P i = true
  · have hparts := hgate
    unfold cellDecisionGate at hparts
    simp only [Bool.and_eq_true, decide_eq_true_eq] at hparts
    obtain ⟨⟨⟨hhist, hin⟩, hshock⟩, hneq⟩ := hparts
    have hmot : cellMotionScore P i = 0 := (processCell_zero_delta_signals P i hd he).2.2
    have hcen : cellCurrentEdgeNorm P i = 0 := by
      unfold cellCurrentEdgeNorm
      rw [he]
    have hallow : cellAllowPersistence P i = true := by
      unfold cellAllowPersistence
      rw [hmot]
      split_ifs
      · simp only [decide_eq_true_eq, not_lt]
        positivity
      · rfl
    have hthr : cellLumaDelta P i < cellInertiaThreshold P i := by
      rw [hd]
      unfold cellInertiaThreshold
      rw [hmot, hcen]
      have hbase : 0 < 1/50 + P.inertia * (1/4) := by positivity
      split_ifs
      · have : max ((1:ℚ)/10) ((1 - P.adaptiveStrength * 0) * (1 - P.adaptiveStrength * (1/2) * 0)) = 1 := by
          norm_num
        rw [this, mul_one]
        exact hbase
      · exact hbase
    unfold cellPersists
    rw [hgate, hallow, hd]
    simp only [Bool.true_and]
    rw [hd] at hthr
    simp [hthr]
  · have hfalse : cellDecisionGate P i = false := by
      cases h : cellDecisionGate P i
      · rfl
      · exact absurd h hgate
    unfold cellPersists
    rw [hfalse]
    simp

/-- Over a frame whose cells all have zero luma delta and no edge data,
every decision locks and all temporal sums vanish. -/
theorem runCells_zero_delta (P : CellCtx) (n : ℕ)
    (hd : ∀ i, i < n → cellLumaDelta P i = 0) (he : P.edgeData = none)
    (hg : 0 ≤ P.ghostClamp) :
    (runCells P n).locks = (runCells P n).decisions ∧
    (runCells P n).lumaDeltaSum = 0 ∧ (runCells P n).edgeDeltaSum = 0 ∧
    (runCells P n).motionSum = 0 := by
  refine ⟨?_, ?_, ?_, ?_⟩
  · rw [runCells_locks, runCells_decisions]
    apply congrArg
    apply List.map_congr_left
    intro i hi
    have : (processCell P i).locked = (processCell P i).decided := by
      show cellPersists P i = cellDecisionGate P i
      exact cellPersists_of_zero_delta P i (hd i (List.mem_range.mp hi)) he hg
    rw [this]
  · unfold runCells
    rw [foldl_loopStep_lumaDeltaSum]
    simp only [LoopAcc.lumaDeltaSum, zero_add]
    apply List.sum_eq_zero
    intro x hx
    obtain ⟨i, hi, hix⟩ := List.mem_map.mp hx
    rw [← hix]
    have : (processCell P i).lumaDelta = 0 :=
      (processCell_zero_delta_signals P i (hd i (List.mem_range.mp hi)) he).1
    rw [this, ite_self]
  · unfold runCells
    rw [foldl_loopStep_edgeDeltaSum]
    simp only [LoopAcc.edgeDeltaSum, zero_add]
    apply List.sum_eq_zero
    intro x hx
    obtain ⟨i, hi, hix⟩ := List.mem_map.mp hx
    rw [← hix]
    have : (processCell P i).edgeDeltaNorm = 0 :=
      (processCell_zero_delta_signals P i (hd i (List.mem_range.mp hi)) he).2.1
    rw [this, ite_self]
  · unfold runCells
    rw [foldl_loopStep_motionSum]
    simp only [LoopAcc.motionSum, zero_add]
    apply List.sum_eq_zero
    intro x hx
    obtain ⟨i, hi, hix⟩ := List.mem_map.mp hx
    rw [← hix]
    have : (processCell P i).motionScore = 0 :=
      (processCell_zero_delta_signals P i (hd i (List.mem_range.mp hi)) he).2.2
    rw [this, ite_self]

/-- When every decision locked, the lock ratio is 1 with at least one
decision and 0 with none. -/
theorem ratio_of_all_locked (a b : ℕ) (h : a = b) :
    (if 0 < b then (a : ℚ) / (b : ℚ) else 0) = if 0 < b then 1 else 0 := by
  subst h
  by_cases h0 : 0 < a
  · rw [if_pos h0, if_pos h0]
    exact div_self (by exact_mod_cast Nat.pos_iff_ne_zero.mp h0)
  · rw [if_neg h0, if_neg h0]

/-- A cell whose lookup is the identity, with no Bayer offset and the
current luma buffer equal to the previous one, has zero luma delta. -/
theorem cellLumaDelta_zero_of_identity (P : CellCtx) (i : ℕ)
    (hb : P.bayerActive = false) (hl : P.lookupIdx P.frame i = i)
    (heq : P.luma = P.prevLuma) (hi : i < P.prevLuma.length)
    (hhist : P.hasHistory = true) :
    cellLumaDelta P i = 0 := by
  unfold cellLumaDelta cellPrevLum cellLuminance cellLIdx
  rw [hhist, hb, hl, heq]
  simp only [if_true, Bool.false_eq_true, if_false]
  rw [List.getD_eq_getElem _ _ hi, List.getD_eq_getElem _ _ hi]
  simp

/-- Core of the identical-frames scenario: with valid history, identical
luma (`lumaIn = st1.prevLuma`), no dithering, no outline, identity lookup
and no shock, every persistence decision locks, so the frame's lock ratio
is 1 when at least one naive glyph changed and 0 otherwise, and all
temporal means are 0. -/
theorem renderTemporalCore_identical_luma
    (cfg : TemporalConfig) (st1 : TemporalState) (cols rows : ℕ)
    (sobelMag : List ℚ) (sobelMax : ℚ) (naiveCharF : ℕ → ℕ → ℚ → Char)
    (disciplined : ℕ)
    (hen : cfg.temporalEnabled = true) (hval : st1.historyValid = true)
    (hplen : st1.prevLuma.length = cols * rows)
    (hclen : st1.prevCharGrid.length = cols * rows)
    (hdith : cfg.dithering = 0) (hout : cfg.outlineEnabled = false) :
    (renderTemporalCore cfg st1 cols rows st1.prevLuma sobelMag sobelMax
        (fun _ i => i) naiveCharF disciplined 0).2.lockCount =
      (renderTemporalCore cfg st1 cols rows st1.prevLuma sobelMag sobelMax
        (fun _ i => i) naiveCharF disciplined 0).2.decisionCount ∧
    (renderTemporalCore cfg st1 cols rows st1.prevLuma sobelMag sobelMax
        (fun _ i => i) naiveCharF disciplined 0).2.temporal =
      some
        ⟨if 0 < (renderTemporalCore cfg st1 cols rows st1.prevLuma sobelMag sobelMax
            (fun _ i => i) naiveCharF disciplined 0).2.decisionCount then 1 else 0,
          0, 0, 0⟩ := by
  have hh : cfg.temporalEnabled = true ∧ st1.historyValid = true ∧
      st1.prevLuma.length = cols * rows ∧ st1.prevCharGrid.length = cols * rows :=
    ⟨hen, hval, hplen, hclen⟩
  unfold renderTemporalCore
  simp only [hen, hout, hdith, lt_irrefl, false_and, and_false, if_false,
    applyTemporalBlend_self, ite_self, if_true, Bool.false_eq_true,
    reduceIte]
  have hzero : ∀ (P : CellCtx), P.bayerActive = false → P.lookupIdx = (fun _ i => i) →
      P.luma = st1.prevLuma → P.prevLuma = st1.prevLuma → P.hasHistory = true →
      P.edgeData = none → P.ghostClamp = clamp01 cfg.temporalGhostClamp →
      (runCells P (cols * rows)).locks = (runCells P (cols * rows)).decisions ∧
      (runCells P (cols * rows)).lumaDeltaSum = 0 ∧
      (runCells P (cols * rows)).edgeDeltaSum = 0 ∧
      (runCells P (cols * rows)).motionSum = 0 := by
    intro P hb hl hlu hpl hhist hed hgc
    apply runCells_zero_delta
    · intro i hi
      apply cellLumaDelta_zero_of_identity P i hb (by rw [hl]) (by rw [hlu, hpl]) ?_ hhist
      rw [hpl, hplen]
      exact hi
    · exact hed
    · rw [hgc]
      exact clamp01_nonneg _
  have hmain := hzero
    { cols := cols, sampleLen := cols * rows, inertia := clamp01 cfg.characterInertia
      adaptiveEnabled := true && cfg.adaptiveInertiaEnabled
      adaptiveStrength := clamp01 cfg.adaptiveInertiaStrength
      ghostClamp := clamp01 cfg.temporalGhostClamp, bayerActive := decide False
      dithering := 0
      hasHistory := decide (True ∧ st1.historyValid = true ∧
        st1.prevLuma.length = cols * rows ∧ st1.prevCharGrid.length = cols * rows)
      shockIntensity := 0, sobelMax := sobelMax, luma := st1.prevLuma, edgeData := none
      prevLuma := st1.prevLuma, prevEdgeMag := st1.prevEdgeMag
      prevCharGrid := st1.prevCharGrid, frame := disciplined
      lookupIdx := fun _ i => i, naiveCharF := naiveCharF }
    rfl rfl rfl rfl (decide_eq_true ⟨trivial, hval, hplen, hclen⟩) rfl rfl
  refine ⟨hmain.1, ?_⟩
  simp only [Option.some.injEq, TemporalMetrics.mk.injEq]
  refine ⟨ratio_of_all_locked _ _ hmain.1, ?_, ?_, ?_⟩
  · rw [hmain.2.1]
    simp
  · rw [hmain.2.2.1]
    simp
  · rw [hmain.2.2.2]
    simp

/-- Temporal configuration of the identical-frames scenario: temporal
enabled, blend 0.5, inertia 0.5, no outline, no dithering, no adaptive
inertia. -/
def identicalFramesCfg : TemporalConfig :=
  ⟨true, 1/2, 1/2, 1/5, false, 11/20, 9/20, DitheringMode.BAYER, 0, false, false, "sig"⟩

/-- The default-ramp naive glyph function (standard ramp, not inverted),
which does not depend on the frame index. -/
def stdRampNaiveCharF : ℕ → ℕ → ℚ → Char :=
  fun _ _ lum => getCharRampIdx standardRampSymbols false lum

set_option maxRecDepth 400000 in
/-- Counterexample to C7 as stated: two consecutive identical-luma frames
(indices 0 then 1, flat luma 1/2 on a 2×1 grid) with temporal enabled,
blend 0.5, inertia 0.5 and no motion give lock ratio 0 on frame 1, not 1.0:
the default-ramp naive glyph of every cell is unchanged between the
identical frames, so no persistence decision is ever taken and the ratio
falls back to 0. -/
theorem identical_frames_lock_ratio_counterexample :
    ((renderTemporalFrame identicalFramesCfg
        (renderTemporalFrame identicalFramesCfg initialTemporalState 2 1 [1/2, 1/2] []
          (5657/1000) (fun _ i => i) stdRampNaiveCharF (some 0) none).1
        2 1 [1/2, 1/2] [] (5657/1000) (fun _ i => i) stdRampNaiveCharF
        (some 1) none).2.temporal.map TemporalMetrics.lockRatio) = some 0 ∧
    ((renderTemporalFrame identicalFramesCfg
        (renderTemporalFrame identicalFramesCfg initialTemporalState 2 1 [1/2, 1/2] []
          (5657/1000) (fun _ i => i) stdRampNaiveCharF (some 0) none).1
        2 1 [1/2, 1/2] [] (5657/1000) (fun _ i => i) stdRampNaiveCharF
        (some 1) none).2.temporal.map TemporalMetrics.lockRatio) ≠ some 1 := by
  constructor
  · with_unfolding_all decide
  · with_unfolding_all decide

/-- C7 (amended): on the second of two identical-luma frames (valid
history, matching signature and cell count, consecutive frame index, no
dithering, no outline, identity lookup, no shock), every cell whose naive
glyph differs from the previous frame's glyph is forced to persist (its
luma delta is 0), so the lock ratio is exactly 1 when at least one naive
glyph changed — and 0 when none did (no decision is taken); all temporal
means are 0. -/
theorem identical_frames_lock_ratio
    (cfg : TemporalConfig) (st : TemporalState) (cols rows : ℕ)
    (sobelMag : List ℚ) (sobelMax : ℚ) (naiveCharF : ℕ → ℕ → ℚ → Char)
    (frameIndex : JsNumber) (shockProgress : Option ℚ)
    (hen : cfg.temporalEnabled = true) (hval : st.historyValid = true)
    (hsig : cfg.signature = st.appliedSignature)
    (hlen : st.lastSampleLen = cols * rows)
    (hcont : ((disciplineFrameIndex frameIndex : ℕ) : ℤ) = st.lastFrameIndex + 1)
    (hplen : st.prevLuma.length = cols * rows)
    (hclen : st.prevCharGrid.length = cols * rows)
    (hdith : cfg.dithering = 0) (hout : cfg.outlineEnabled = false)
    (hsh : shockIntensityOf shockProgress = 0) :
    (renderTemporalFrame cfg st cols rows st.prevLuma sobelMag sobelMax
        (fun _ i => i) naiveCharF frameIndex shockProgress).2.lockCount =
      (renderTemporalFrame cfg st cols rows st.prevLuma sobelMag sobelMax
        (fun _ i => i) naiveCharF frameIndex shockProgress).2.decisionCount ∧
    (renderTemporalFrame cfg st cols rows st.prevLuma sobelMag sobelMax
        (fun _ i => i) naiveCharF frameIndex shockProgress).2.temporal =
      some
        ⟨if 0 < (renderTemporalFrame cfg st cols rows st.prevLuma sobelMag sobelMax
            (fun _ i => i) naiveCharF frameIndex shockProgress).2.decisionCount then 1
          else 0, 0, 0, 0⟩ := by
  have hnr : ¬(cfg.temporalEnabled = true ∧
      (st.historyValid = false ∨ cfg.signature ≠ st.appliedSignature ∨
        st.lastSampleLen ≠ cols * rows ∨
        (0 ≤ st.lastFrameIndex ∧
          ((disciplineFrameIndex frameIndex : ℕ) : ℤ) ≠ st.lastFrameIndex + 1))) := by
    rintro ⟨-, h | h | h | ⟨-, h⟩⟩
    · rw [hval] at h
      exact Bool.true_eq_false.mp h
    · exact h hsig
    · exact h hlen
    · exact h hcont
  unfold renderTemporalFrame
  simp only [if_neg hnr, hsh]
  exact renderTemporalCore_identical_luma cfg st cols rows sobelMag sobelMax naiveCharF
    (disciplineFrameIndex frameIndex) hen hval hplen hclen hdith hout

set_option maxRecDepth 400000 in
/-- Closed instance of the amended C7: previous glyph grid `['#', '=']`,
naive glyphs `'='` at both cells: one decision, which locks, so the lock
ratio is exactly 1. -/
theorem identical_frames_lock_ratio_witness :
    ((renderTemporalFrame identicalFramesCfg
        ⟨[1/2, 1/2], [0, 0], ['#', '='], true, 0, 2, "sig"⟩ 2 1 [1/2, 1/2] []
        (5657/1000) (fun _ i => i) stdRampNaiveCharF (some 1) none).2.lockCount =
      (renderTemporalFrame identicalFramesCfg
        ⟨[1/2, 1/2], [0, 0], ['#', '='], true, 0, 2, "sig"⟩ 2 1 [1/2, 1/2] []
        (5657/1000) (fun _ i => i) stdRampNaiveCharF (some 1) none).2.decisionCount) ∧
    (renderTemporalFrame identicalFramesCfg
        ⟨[1/2, 1/2], [0, 0], ['#', '='], true, 0, 2, "sig"⟩ 2 1 [1/2, 1/2] []
        (5657/1000) (fun _ i => i) stdRampNaiveCharF (some 1) none).2.temporal =
      some ⟨1, 0, 0, 0⟩ := by
  have h := identical_frames_lock_ratio identicalFramesCfg
    ⟨[1/2, 1/2], [0, 0], ['#', '='], true, 0, 2, "sig"⟩ 2 1 [] (5657/1000)
    stdRampNaiveCharF (some 1) none rfl rfl rfl (by with_unfolding_all decide)
    (by with_unfolding_all decide) (by with_unfolding_all decide)
    (by with_unfolding_all decide) rfl rfl (by with_unfolding_all decide)
  refine ⟨h.1, ?_⟩
  rw [h.2]
  have hd : (renderTemporalFrame identicalFramesCfg
      ⟨[1/2, 1/2], [0, 0], ['#', '='], true, 0, 2, "sig"⟩ 2 1 [1/2, 1/2] []
      (5657/1000) (fun _ i => i) stdRampNaiveCharF (some 1) none).2.decisionCount = 1 := by
    with_unfolding_all decide
  rw [hd]
  norm_num

/-- C4: for any 8-bit RGBA samples and in-range grading parameters, every
R, G and B channel of every cell of the graded buffer lies in `[0,1]` (the
final per-channel `clamp01` guarantees it). -/
theorem grading_output_clamped (p : GradingParams) (data : List (ℕ × ℕ × ℕ × ℕ))
    (hb : 0 ≤ p.brightness ∧ p.brightness ≤ 3)
    (hc : 0 ≤ p.contrast ∧ p.contrast ≤ 3)
    (hh : -180 ≤ p.hue ∧ p.hue ≤ 180)
    (hs : 0 ≤ p.saturation ∧ p.saturation ≤ 4)
    (hl : 0 ≤ p.lightness ∧ p.lightness ≤ 4)
    (hg : 1/10 ≤ p.gamma ∧ p.gamma ≤ 4)
    (hdata : ∀ q ∈ data, q.1 ≤ 255 ∧ q.2.1 ≤ 255 ∧ q.2.2.1 ≤ 255 ∧ q.2.2.2 ≤ 255) :
    ∀ q ∈ applyGrading p data,
      (0 ≤ q.1 ∧ q.1 ≤ 1) ∧ (0 ≤ q.2.1 ∧ q.2.1 ≤ 1) ∧
        (0 ≤ q.2.2.1 ∧ q.2.2.1 ≤ 1) := by
  intro q hq
  obtain ⟨x, -, rfl⟩ := List.mem_map.mp hq
  exact ⟨⟨clamp01R_nonneg _, clamp01R_le_one _⟩, ⟨clamp01R_nonneg _, clamp01R_le_one _⟩,
    ⟨clamp01R_nonneg _, clamp01R_le_one _⟩⟩

/-- Closed instance of C4 at neutral parameters and one orange pixel. -/
theorem grading_output_clamped_witness :
    (0 ≤ (gradePixel ⟨1, 1, 0, 1, 1, 1⟩ 255 128 0 255).1 ∧
      (gradePixel ⟨1, 1, 0, 1, 1, 1⟩ 255 128 0 255).1 ≤ 1) ∧
    (0 ≤ (gradePixel ⟨1, 1, 0, 1, 1, 1⟩ 255 128 0 255).2.1 ∧
      (gradePixel ⟨1, 1, 0, 1, 1, 1⟩ 255 128 0 255).2.1 ≤ 1) ∧
    (0 ≤ (gradePixel ⟨1, 1, 0, 1, 1, 1⟩ 255 128 0 255).2.2.1 ∧
      (gradePixel ⟨1, 1, 0, 1, 1, 1⟩ 255 128 0 255).2.2.1 ≤ 1) :=
  grading_output_clamped ⟨1, 1, 0, 1, 1, 1⟩ [(255, 128, 0, 255)]
    (by norm_num) (by norm_num) (by norm_num) (by norm_num) (by norm_num) (by norm_num)
    (by norm_num) (gradePixel ⟨1, 1, 0, 1, 1, 1⟩ 255 128 0 255)
    (by simp [applyGrading])

/-- Monotone step for the edge count: a lower threshold classifies at least
as many cells as a higher one. -/
theorem edgeCellCount_mono_of_threshold (mags : List ℝ) (s s' : ℝ)
    (hth : edgeThreshold s' ≤ edgeThreshold s) :
    edgeCellCount mags s ≤ edgeCellCount mags s' := by
  unfold edgeCellCount
  induction mags with
  | nil => simp
  | cons m t ih =>
    simp only [List.filter_cons]
    by_cases h1 : edgeThreshold s < m
    · have h2 : edgeThreshold s' < m := lt_of_le_of_lt hth h1
      simp [h1, h2]
      omega
    · by_cases h2 : edgeThreshold s' < m
      · simp [h1, h2]
        omega
      · simp [h1, h2]
        exact ih

/-- C6: for a fixed frame (its Sobel magnitudes) a cell is an edge when its
magnitude exceeds `(1 − sensitivity) × 4√2`, this threshold is
non-increasing in the sensitivity, and raising the sensitivity never
decreases the number of cells classified as edges. -/
theorem edge_count_monotone (mags : List ℝ) (s s' : ℝ)
    (h0 : 0 ≤ s) (hss : s ≤ s') (h1 : s' ≤ 1) :
    edgeThreshold s = (1 - s) * (4 * Real.sqrt 2) ∧
    edgeThreshold s' ≤ edgeThreshold s ∧
    edgeCellCount mags s ≤ edgeCellCount mags s' := by
  have hsub : ∀ t : ℝ, 0 ≤ t → t ≤ 1 → clamp01R (1 - t) = 1 - t := by
    intro t ht0 ht1
    unfold clamp01R
    rw [min_eq_right (by linarith), max_eq_right (by linarith)]
  have hmono : edgeThreshold s' ≤ edgeThreshold s := by
    unfold edgeThreshold
    apply mul_le_mul_of_nonneg_right
    · unfold clamp01R
      exact max_le_max le_rfl (min_le_min le_rfl (by linarith))
    · unfold SOBEL_MAX_MAGNITUDE
      positivity
  refine ⟨?_, hmono, edgeCellCount_mono_of_threshold mags s s' hmono⟩
  unfold edgeThreshold SOBEL_MAX_MAGNITUDE
  rw [hsub s h0 (le_trans hss h1)]

/-- Closed instance of C6 at sensitivities 1/4 ≤ 1/2 over three
magnitudes. -/
theorem edge_count_monotone_witness :
    edgeThreshold (1/4) = (1 - 1/4) * (4 * Real.sqrt 2) ∧
    edgeThreshold (1/2) ≤ edgeThreshold (1/4) ∧
    edgeCellCount [0, 1, 2] (1/4) ≤ edgeCellCount [0, 1, 2] (1/2) :=
  edge_count_monotone [0, 1, 2] (1/4) (1/2) (by norm_num) (by norm_num) (by norm_num)

/-- C8: `render` invoked with neither a source nor a brush canvas returns
the empty glyph-count map and zero metrics (average luminance 0, density 0,
entropy 0, dominant color black, no temporal summary) and leaves the
temporal state untouched. -/
theorem render_no_source_empty (cfg : RenderConfig) (st : TemporalState)
    (cols rows : ℕ) (graded sobelMag : List ℚ) (sobelMax : ℚ)
    (lookupIdx : ℕ → ℕ → ℕ) (naiveCharF : ℕ → ℕ → ℚ → Char)
    (frameIndex : JsNumber) (shockProgress : Option ℚ) :
    render false false cfg st cols rows graded sobelMag sobelMax lookupIdx naiveCharF
        frameIndex shockProgress = (st, emptyRenderResult) := by
  unfold render
  simp

/-- Replacing the raw frame index by its disciplined value does not change
the temporal slice: the raw index is consumed only through
`disciplineFrameIndex`. -/
theorem renderTemporalFrame_disciplined (cfg : TemporalConfig) (st : TemporalState)
    (cols rows : ℕ) (lumaIn sobelMag : List ℚ) (sobelMax : ℚ)
    (lookupIdx : ℕ → ℕ → ℕ) (naiveCharF : ℕ → ℕ → ℚ → Char)
    (frameIndex : JsNumber) (shockProgress : Option ℚ) :
    renderTemporalFrame cfg st cols rows lumaIn sobelMag sobelMax lookupIdx naiveCharF
        frameIndex shockProgress =
      renderTemporalFrame cfg st cols rows lumaIn sobelMag sobelMax lookupIdx naiveCharF
        (some ((disciplineFrameIndex frameIndex : ℕ) : ℚ)) shockProgress := by
  have h : disciplineFrameIndex (some ((disciplineFrameIndex frameIndex : ℕ) : ℚ)) =
      disciplineFrameIndex frameIndex := by
    cases frameIndex with
    | none => simp [disciplineFrameIndex]
    | some q =>
      simp only [disciplineFrameIndex, Int.floor_natCast]
      omega
  unfold renderTemporalFrame
  rw [h]

/-- C10: the frame index actually used by every frame-dependent computation
of the model (the temporal continuity check, the coordinate lookup and the
naive glyph selection) is `max(0, floor(frameIndex))` for finite inputs and
0 for non-finite ones: rendering with any raw index equals rendering with
the sanitized index `disciplineFrameIndex frameIndex`. -/
theorem render_frame_index_disciplined (hasSource hasBrush : Bool) (cfg : RenderConfig)
    (st : TemporalState) (cols rows : ℕ) (graded sobelMag : List ℚ) (sobelMax : ℚ)
    (lookupIdx : ℕ → ℕ → ℕ) (naiveCharF : ℕ → ℕ → ℚ → Char)
    (frameIndex : JsNumber) (shockProgress : Option ℚ) :
    render hasSource hasBrush cfg st cols rows graded sobelMag sobelMax lookupIdx
        naiveCharF frameIndex shockProgress =
      render hasSource hasBrush cfg st cols rows graded sobelMag sobelMax lookupIdx
        naiveCharF (some ((disciplineFrameIndex frameIndex : ℕ) : ℚ)) shockProgress := by
  by_cases hsb : hasSource = false ∧ hasBrush = false
  · unfold render
    simp [hsb]
  · unfold render
    simp only [if_neg hsb]
    rw [renderTemporalFrame_disciplined cfg.temporal st cols rows _ sobelMag sobelMax
      lookupIdx naiveCharF frameIndex shockProgress]

theorem getD_map_hexToRgb (palette : List String) (i : ℕ) (hi : i < palette.length) :
    (palette.map hexToRgb).getD i ⟨0, 0, 0⟩ = hexToRgb (palette.getD i "#000000") := by
  rw [List.getD_eq_getElem _ _ (by simpa using hi), List.getD_eq_getElem _ _ hi]
  simp

/-- Invariant of `findNearestColor`'s scan over the first `k` palette
entries: the accumulator holds the first index attaining the minimal
squared distance among them. -/
theorem findNearest_fold_spec (r g b : ℚ) (palette : List String) (k : ℕ)
    (hk : 1 ≤ k) (hkn : k ≤ palette.length) :
    ∃ i, i < k ∧
      (List.range k).foldl (findNearestStep r g b palette)
          (none, palette.headD "#000000") =
        (some (rgbDistSq r g b (hexToRgb (palette.getD i "#000000"))),
          palette.getD i "#000000") ∧
      (∀ j, j < k → rgbDistSq r g b (hexToRgb (palette.getD i "#000000")) ≤
        rgbDistSq r g b (hexToRgb (palette.getD j "#000000"))) ∧
      (∀ j, j < i → rgbDistSq r g b (hexToRgb (palette.getD i "#000000")) <
        rgbDistSq r g b (hexToRgb (palette.getD j "#000000"))) := by
  induction k with
  | zero => omega
  | succ k ih =>
    rcases Nat.eq_or_lt_of_le hk with h1 | h2
    · -- k + 1 = 1: first iteration seeds the accumulator
      have hk0 : k = 0 := by omega
      subst hk0
      refine ⟨0, Nat.zero_lt_one, ?_, ?_, ?_⟩
      · show findNearestStep r g b palette (none, palette.headD "#000000") 0 = _
        unfold findNearestStep
        have h0 : 0 < palette.length := by omega
        rw [getD_map_hexToRgb palette 0 h0]
        have : palette.getD 0 (palette.headD "#000000") = palette.getD 0 "#000000" := by
          rw [List.getD_eq_getElem _ _ h0, List.getD_eq_getElem _ _ h0]
        rw [this]
      · intro j hj
        interval_cases j
        exact le_rfl
      · omega
    · have hk' : 1 ≤ k := by omega
      obtain ⟨i, hi, heq, hmin, hfirst⟩ := ih hk' (le_of_lt hkn)
      rw [List.range_succ, List.foldl_append, heq]
      unfold findNearestStep
      simp only [List.foldl_cons, List.foldl_nil]
      rw [getD_map_hexToRgb palette k hkn]
      by_cases hlt : rgbDistSq r g b (hexToRgb (palette.getD k "#000000")) <
          rgbDistSq r g b (hexToRgb (palette.getD i "#000000"))
      · refine ⟨k, Nat.lt_succ_self k, ?_, ?_, ?_⟩
        · rw [if_pos hlt]
          have : palette.getD k (palette.getD i "#000000") = palette.getD k "#000000" := by
            rw [List.getD_eq_getElem _ _ hkn, List.getD_eq_getElem _ _ hkn]
          rw [this]
        · intro j hj
          rcases Nat.lt_succ_iff_lt_or_eq.mp hj with hj' | hj'
          · exact le_trans (le_of_lt hlt) (hmin j hj')
          · subst hj'
            exact le_rfl
        · intro j hj
          exact lt_of_lt_of_le hlt (hmin j hj)
      · refine ⟨i, Nat.lt_succ_of_lt hi, ?_, ?_, ?_⟩
        · rw [if_neg hlt]
        · intro j hj
          rcases Nat.lt_succ_iff_lt_or_eq.mp hj with hj' | hj'
          · exact hmin j hj'
          · subst hj'
            exact le_of_not_lt hlt
        · exact hfirst

/-- `findNearestColor` returns the palette entry nearest to the query by
squared Euclidean RGB distance, ties broken in favor of the earliest
palette index. -/
theorem findNearestColor_spec (r g b : ℚ) (palette : List String)
    (hne : palette ≠ []) :
    ∃ i, i < palette.length ∧
      findNearestColor r g b palette = palette.getD i "#000000" ∧
      (∀ j, j < palette.length →
        rgbDistSq r g b (hexToRgb (palette.getD i "#000000")) ≤
          rgbDistSq r g b (hexToRgb (palette.getD j "#000000"))) ∧
      (∀ j, j < i → rgbDistSq r g b (hexToRgb (palette.getD i "#000000")) <
        rgbDistSq r g b (hexToRgb (palette.getD j "#000000"))) := by
  have hn : 1 ≤ palette.length := List.length_pos.mpr hne
  obtain ⟨i, hi, heq, hmin, hfirst⟩ :=
    findNearest_fold_spec r g b palette palette.length hn le_rfl
  refine ⟨i, hi, ?_, hmin, hfirst⟩
  unfold findNearestColor
  rw [List.length_map, heq]

/-- Resolver context with colorize-dither Bayer active (amount 1) over a
black/white palette: at cell (0,0) the Bayer offset is −1/2, so graded
mid-bright gray 3/5 is perturbed down to 1/10 before quantization. -/
def bayerQuantCtx : ResolveCtx :=
  ⟨ColorMode.QUANTIZED, "#29adff", ["#000000", "#ffffff"], [], true,
    DitheringMode.BAYER, 1⟩

set_option maxRecDepth 400000 in
/-- Counterexample to C5 as stated: with colorize-dither Bayer active, the
quantized fill of the non-edge cell (0,0) with graded RGB (3/5, 3/5, 3/5)
is `#000000` (nearest to the Bayer-perturbed value 1/10), while the palette
color nearest to the cell's graded RGB is `#ffffff` — the resolved fill is
not the palette color nearest to the graded RGB. -/
theorem quantized_fill_nearest_counterexample :
    resolveColor bayerQuantCtx false 0 0 (3/5) (3/5) (3/5) (1/2) 0 = "#000000" ∧
    findNearestColor (3/5 * 255) (3/5 * 255) (3/5 * 255) bayerQuantCtx.palette =
      "#ffffff" ∧
    resolveColor bayerQuantCtx false 0 0 (3/5) (3/5) (3/5) (1/2) 0 ≠
      findNearestColor (3/5 * 255) (3/5 * 255) (3/5 * 255) bayerQuantCtx.palette := by
  refine ⟨?_, ?_, ?_⟩
  · with_unfolding_all decide
  · with_unfolding_all decide
  · with_unfolding_all decide

/-- C5 (amended): in quantized color-mode, the resolved fill color of every
non-edge glyph cell is exactly one of the active palette's hex entries,
namely the palette color nearest by squared Euclidean RGB distance (ties
broken in favor of the earliest palette index) to the resolver's input RGB
— the cell's graded RGB after the optional colorize-dither Bayer
perturbation and shock tint; when colorize-dither Bayer is inactive and no
shock is in progress, that input is exactly the cell's graded RGB. -/
theorem quantized_fill_is_nearest_palette (ctx : ResolveCtx) (x y : ℕ)
    (r g b luminance shockIntensity : ℚ)
    (hq : ctx.colorMode = ColorMode.QUANTIZED) (hne : ctx.palette ≠ []) :
    (∃ i, i < ctx.palette.length ∧
      resolveColor ctx false x y r g b luminance shockIntensity =
        ctx.palette.getD i "#000000" ∧
      (∀ j, j < ctx.palette.length →
        rgbDistSq ((resolverInputRGB ctx x y r g b shockIntensity).1 * 255)
            ((resolverInputRGB ctx x y r g b shockIntensity).2.1 * 255)
            ((resolverInputRGB ctx x y r g b shockIntensity).2.2 * 255)
            (hexToRgb (ctx.palette.getD i "#000000")) ≤
          rgbDistSq ((resolverInputRGB ctx x y r g b shockIntensity).1 * 255)
            ((resolverInputRGB ctx x y r g b shockIntensity).2.1 * 255)
            ((resolverInputRGB ctx x y r g b shockIntensity).2.2 * 255)
            (hexToRgb (ctx.palette.getD j "#000000"))) ∧
      (∀ j, j < i →
        rgbDistSq ((resolverInputRGB ctx x y r g b shockIntensity).1 * 255)
            ((resolverInputRGB ctx x y r g b shockIntensity).2.1 * 255)
            ((resolverInputRGB ctx x y r g b shockIntensity).2.2 * 255)
            (hexToRgb (ctx.palette.getD i "#000000")) <
          rgbDistSq ((resolverInputRGB ctx x y r g b shockIntensity).1 * 255)
            ((resolverInputRGB ctx x y r g b shockIntensity).2.1 * 255)
            ((resolverInputRGB ctx x y r g b shockIntensity).2.2 * 255)
            (hexToRgb (ctx.palette.getD j "#000000")))) ∧
    (¬(ctx.colorizeDither = true ∧ ctx.ditheringMode = DitheringMode.BAYER ∧
        0 < ctx.dithering) →
      ¬(0 < shockIntensity) →
      resolverInputRGB ctx x y r g b shockIntensity = (r, g, b)) := by
  constructor
  · have hres : resolveColor ctx false x y r g b luminance shockIntensity =
        findNearestColor ((resolverInputRGB ctx x y r g b shockIntensity).1 * 255)
          ((resolverInputRGB ctx x y r g b shockIntensity).2.1 * 255)
          ((resolverInputRGB ctx x y r g b shockIntensity).2.2 * 255) ctx.palette := by
      unfold resolveColor
      rw [hq]
      simp
    rw [hres]
    exact findNearestColor_spec _ _ _ ctx.palette hne
  · intro hnd hns
    unfold resolverInputRGB
    rw [if_neg hnd, if_neg hns]

/-- Closed instance of the amended C5: red-dominant graded RGB against a
two-color palette, colorize-dither Bayer inactive and no shock, resolves to
the nearest palette entry and the resolver input equals the graded RGB. -/
theorem quantized_fill_is_nearest_palette_witness :
    (∃ i, i < (["#ff0000", "#00ff00"] : List String).length ∧
      resolveColor
          ⟨ColorMode.QUANTIZED, "#29adff", ["#ff0000", "#00ff00"], [], false,
            DitheringMode.BAYER, 0⟩ false 0 0 (9/10) (1/10) (1/10) (1/2) 0 =
        (["#ff0000", "#00ff00"] : List String).getD i "#000000" ∧
      (∀ j, j < (["#ff0000", "#00ff00"] : List String).length →
        rgbDistSq
            ((resolverInputRGB
              ⟨ColorMode.QUANTIZED, "#29adff", ["#ff0000", "#00ff00"], [], false,
                DitheringMode.BAYER, 0⟩ 0 0 (9/10) (1/10) (1/10) 0).1 * 255)
            ((resolverInputRGB
              ⟨ColorMode.QUANTIZED, "#29adff", ["#ff0000", "#00ff00"], [], false,
                DitheringMode.BAYER, 0⟩ 0 0 (9/10) (1/10) (1/10) 0).2.1 * 255)
            ((resolverInputRGB
              ⟨ColorMode.QUANTIZED, "#29adff", ["#ff0000", "#00ff00"], [], false,
                DitheringMode.BAYER, 0⟩ 0 0 (9/10) (1/10) (1/10) 0).2.2 * 255)
            (hexToRgb ((["#ff0000", "#00ff00"] : List String).getD i "#000000")) ≤
          rgbDistSq
            ((resolverInputRGB
              ⟨ColorMode.QUANTIZED, "#29adff", ["#ff0000", "#00ff00"], [], false,
                DitheringMode.BAYER, 0⟩ 0 0 (9/10) (1/10) (1/10) 0).1 * 255)
            ((resolverInputRGB
              ⟨ColorMode.QUANTIZED, "#29adff", ["#ff0000", "#00ff00"], [], false,
                DitheringMode.BAYER, 0⟩ 0 0 (9/10) (1/10) (1/10) 0).2.1 * 255)
            ((resolverInputRGB
              ⟨ColorMode.QUANTIZED, "#29adff", ["#ff0000", "#00ff00"], [], false,
                DitheringMode.BAYER, 0⟩ 0 0 (9/10) (1/10) (1/10) 0).2.2 * 255)
            (hexToRgb ((["#ff0000", "#00ff00"] : List String).getD j "#000000"))) ∧
      (∀ j, j < i →
        rgbDistSq
            ((resolverInputRGB
              ⟨ColorMode.QUANTIZED, "#29adff", ["#ff0000", "#00ff00"], [], false,
                DitheringMode.BAYER, 0⟩ 0 0 (9/10) (1/10) (1/10) 0).1 * 255)
            ((resolverInputRGB
              ⟨ColorMode.QUANTIZED, "#29adff", ["#ff0000", "#00ff00"], [], false,
                DitheringMode.BAYER, 0⟩ 0 0 (9/10) (1/10) (1/10) 0).2.1 * 255)
            ((resolverInputRGB
              ⟨ColorMode.QUANTIZED, "#29adff", ["#ff0000", "#00ff00"], [], false,
                DitheringMode.BAYER, 0⟩ 0 0 (9/10) (1/10) (1/10) 0).2.2 * 255)
            (hexToRgb ((["#ff0000", "#00ff00"] : List String).getD i "#000000")) <
          rgbDistSq
            ((resolverInputRGB
              ⟨ColorMode.QUANTIZED, "#29adff", ["#ff0000", "#00ff00"], [], false,
                DitheringMode.BAYER, 0⟩ 0 0 (9/10) (1/10) (1/10) 0).1 * 255)
            ((resolverInputRGB
              ⟨ColorMode.QUANTIZED, "#29adff", ["#ff0000", "#00ff00"], [], false,
                DitheringMode.BAYER, 0⟩ 0 0 (9/10) (1/10) (1/10) 0).2.1 * 255)
            ((resolverInputRGB
              ⟨ColorMode.QUANTIZED, "#29adff", ["#ff0000", "#00ff00"], [], false,
                DitheringMode.BAYER, 0⟩ 0 0 (9/10) (1/10) (1/10) 0).2.2 * 255)
            (hexToRgb ((["#ff0000", "#00ff00"] : List String).getD j "#000000")))) ∧
    (¬((false : Bool) = true ∧ DitheringMode.BAYER = DitheringMode.BAYER ∧ (0:ℚ) < 0) →
      ¬((0:ℚ) < 0) →
      resolverInputRGB
          ⟨ColorMode.QUANTIZED, "#29adff", ["#ff0000", "#00ff00"], [], false,
            DitheringMode.BAYER, 0⟩ 0 0 (9/10) (1/10) (1/10) 0 =
        (9/10, 1/10, 1/10)) :=
  quantized_fill_is_nearest_palette
    ⟨ColorMode.QUANTIZED, "#29adff", ["#ff0000", "#00ff00"], [], false,
      DitheringMode.BAYER, 0⟩ 0 0 (9/10) (1/10) (1/10) (1/2) 0 rfl (by simp)

end AsciiAstrit
